import Mathlib

/-!
Variable gas valve controller (msp430fr235x_1.c)

A shallow embedding of the boiler controller firmware: the memory-mapped
registers and globals the control logic touches become fields of `State`,
every C function becomes a function `State → State`, and each register
access is additionally recorded in a ghost log so that statements about
what was (or was never) written during a cycle can be made.
-/

namespace GasValve

/-! ## Constants of the source -/

/-- Bit masks `BITn` of the vendor header `msp430.h` (`BITn = 1 << n`). -/
def BIT0 : Nat := 0x0001
/-- Bit mask `BIT1` of `msp430.h`. -/
def BIT1 : Nat := 0x0002
/-- Bit mask `BIT2` of `msp430.h`. -/
def BIT2 : Nat := 0x0004
/-- Bit mask `BIT5` of `msp430.h`. -/
def BIT5 : Nat := 0x0020

/-- P1.2 (input). -/
def CALL_FOR_HEAT : Nat := BIT2
/-- P2.0 (output). -/
def IGNITOR_LED : Nat := BIT0
/-- P2.5 (output). -/
def PILOT_VALVE : Nat := BIT5
/-- P6.0 RED. -/
def STATUS_RED : Nat := BIT0
/-- P6.1 GREEN. -/
def STATUS_GREEN : Nat := BIT1
/-- P6.2 BLUE. -/
def STATUS_BLUE : Nat := BIT2

/-- ADC channel A3 = P1.3. -/
def THERMOCOUPLE_CH : Nat := 3
/-- ADC channel A4 = P1.4. -/
def THERMISTOR_CH : Nat := 4
/-- ADC channel A5 = P1.5. -/
def SETPOINT_CH : Nat := 5

/-- First enumerator of `enum {STANDBY, HEATING, UP_TO_TEMP}`. -/
def STANDBY : Nat := 0
/-- Second enumerator of the status enum. -/
def HEATING : Nat := 1
/-- Third enumerator of the status enum. -/
def UP_TO_TEMP : Nat := 2

/-! ## Registers, events and state -/

/-- The memory locations written by the control logic. -/
inductive Reg where
  | P1IFG
  | P2OUT
  | P6OUT
  | TB2CCR0
  | TB2CCR1
  | call_for_heat_flag
  deriving DecidableEq, Repr

/-- One recorded access: `r |= m`, `r &= ~m`, `r ^= m`, `r = v`, a call of
`read_ADC(ch)` and a call of `__delay_cycles(n)`. -/
inductive Event where
  | set (r : Reg) (m : Nat)
  | clear (r : Reg) (m : Nat)
  | toggle (r : Reg) (m : Nat)
  | store (r : Reg) (v : Nat)
  | adc (ch : Nat)
  | delay (n : Nat)
  deriving DecidableEq, Repr

/-- The registers and globals of the firmware that the control logic reads or
writes, together with the ghost `log` of accesses.  Port registers are 8 bits
wide, timer registers and `unsigned int` globals 16 bits; configuration
registers that are written once and never read (PxDIR, PxSEL, ADCCTLx, ...)
are not represented. -/
structure State where
  P1IFG : Nat
  P2OUT : Nat
  P6OUT : Nat
  TB2CCR0 : Nat
  TB2CCR1 : Nat
  boiler_temp : Nat
  set_point : Nat
  flame_detected : Nat
  call_for_heat_flag : Nat
  log : List Event
  deriving DecidableEq, Repr

/-- The values the three `(unsigned int)` conversions of ADC samples yield
during one pass of the loop: `boiler` is the value of
`(unsigned int)thermistor_to_temperature(read_ADC(THERMISTOR_CH))`, `setpoint`
that of `(unsigned int)setpoint_to_temperature(read_ADC(SETPOINT_CH))` and
`flame` that of `(unsigned int)thermocouple_to_temperature(read_ADC(THERMOCOUPLE_CH))`
(the last is consumed only if the ignition sequence runs). -/
structure Readings where
  boiler : Nat
  setpoint : Nat
  flame : Nat
  deriving DecidableEq, Repr

/-- Bitwise complement `~m` of a mask, computed in the 16-bit `int` of the
target. -/
def cpl (m : Nat) : Nat := 0xFFFF ^^^ m

/-- Append one event to the ghost log. -/
def emit (e : Event) (s : State) : State :=
  { s with log := s.log ++ [e] }

/-- Statement `P1IFG &= ~m;`. -/
def P1IFG_bic (m : Nat) (s : State) : State :=
  emit (.clear .P1IFG m) { s with P1IFG := (s.P1IFG &&& cpl m) % 256 }

/-- Statement `P2OUT |= m;`. -/
def P2OUT_bis (m : Nat) (s : State) : State :=
  emit (.set .P2OUT m) { s with P2OUT := (s.P2OUT ||| m) % 256 }

/-- Statement `P2OUT &= ~m;`. -/
def P2OUT_bic (m : Nat) (s : State) : State :=
  emit (.clear .P2OUT m) { s with P2OUT := (s.P2OUT &&& cpl m) % 256 }

/-- Statement `P2OUT ^= m;`. -/
def P2OUT_xor (m : Nat) (s : State) : State :=
  emit (.toggle .P2OUT m) { s with P2OUT := (s.P2OUT ^^^ m) % 256 }

/-- Statement `P6OUT |= m;`. -/
def P6OUT_bis (m : Nat) (s : State) : State :=
  emit (.set .P6OUT m) { s with P6OUT := (s.P6OUT ||| m) % 256 }

/-- Statement `P6OUT &= ~m;`. -/
def P6OUT_bic (m : Nat) (s : State) : State :=
  emit (.clear .P6OUT m) { s with P6OUT := (s.P6OUT &&& cpl m) % 256 }

/-- Statement `TB2CCR0 = v;`. -/
def set_TB2CCR0 (v : Nat) (s : State) : State :=
  emit (.store .TB2CCR0 v) { s with TB2CCR0 := v % 65536 }

/-- Statement `TB2CCR1 = v;`. -/
def set_TB2CCR1 (v : Nat) (s : State) : State :=
  emit (.store .TB2CCR1 v) { s with TB2CCR1 := v % 65536 }

/-- Statement `call_for_heat_flag = v;` (an `unsigned char`). -/
def set_call_for_heat_flag (v : Nat) (s : State) : State :=
  emit (.store .call_for_heat_flag v) { s with call_for_heat_flag := v % 256 }

/-- Statement `boiler_temp = v;`. -/
def set_boiler_temp (v : Nat) (s : State) : State :=
  { s with boiler_temp := v }

/-- Statement `set_point = v;`. -/
def set_set_point (v : Nat) (s : State) : State :=
  { s with set_point := v }

/-- Statement `flame_detected = v;`. -/
def set_flame_detected (v : Nat) (s : State) : State :=
  { s with flame_detected := v }

/-- Call `__delay_cycles(n);`: only time passes. -/
def delay_cycles (n : Nat) (s : State) : State :=
  emit (.delay n) s

/-- Call `read_ADC(channel)`: the conversion is started and awaited; the
sample it returns is supplied by the environment (see `Readings`). -/
def read_ADC (channel : Nat) (s : State) : State :=
  emit (.adc channel) s

/-! ## The functions of the source -/

/-- `init_GPIO`: the call-for-heat interrupt flag is cleared, the igniter and
pilot-valve outputs and the three indicator outputs are driven low. -/
def init_GPIO (s : State) : State :=
  let s := P1IFG_bic CALL_FOR_HEAT s
  let s := P2OUT_bic (IGNITOR_LED ||| PILOT_VALVE) s
  P6OUT_bic (STATUS_RED ||| STATUS_GREEN ||| STATUS_BLUE) s

/-- `init_ADC`: writes ADC configuration registers only. -/
def init_ADC (s : State) : State := s

/-- `init_TimerB_PWM`: 20 ms period, 1 ms pulse. -/
def init_TimerB_PWM (s : State) : State :=
  let s := set_TB2CCR0 (20000 - 1) s
  set_TB2CCR1 1000 s

/-- `update_status_LED`: a `switch` over the status with no default case. -/
def update_status_LED (status : Nat) (s : State) : State :=
  match status with
  | 0 => P6OUT_bic (STATUS_RED ||| STATUS_GREEN) (P6OUT_bis STATUS_BLUE s)
  | 1 => P6OUT_bic (STATUS_GREEN ||| STATUS_BLUE) (P6OUT_bis STATUS_RED s)
  | 2 => P6OUT_bic (STATUS_RED ||| STATUS_BLUE) (P6OUT_bis STATUS_GREEN s)
  | _ => s

/-- `turn_everything_off`. -/
def turn_everything_off (s : State) : State :=
  let s := P2OUT_bic (IGNITOR_LED ||| PILOT_VALVE) s
  let s := set_TB2CCR1 1000 s
  set_call_for_heat_flag 0 s

/-- The loop `for (i = 0; i < 10; i++) { P2OUT ^= IGNITOR_LED;
__delay_cycles(100000); }` of `ignition_sequence`, by the number of
iterations still to run. -/
def ignition_blink : Nat → State → State
  | 0, s => s
  | k + 1, s => ignition_blink k (delay_cycles 100000 (P2OUT_xor IGNITOR_LED s))

/-- `ignition_sequence`; `flame` is the value assigned to `flame_detected`. -/
def ignition_sequence (flame : Nat) (s : State) : State :=
  let s := P2OUT_bis PILOT_VALVE s
  let s := ignition_blink 10 s
  let s := set_flame_detected flame (read_ADC THERMOCOUPLE_CH s)
  if s.flame_detected > 40 then
    set_TB2CCR1 2500 s
  else
    turn_everything_off s

/-- `Port_1_ISR`. -/
def Port_1_ISR (s : State) : State :=
  if s.P1IFG &&& CALL_FOR_HEAT ≠ 0 then
    P1IFG_bic CALL_FOR_HEAT (set_call_for_heat_flag 1 s)
  else
    s

/-- `thermistor_to_temperature`, the arithmetic taken as exact (rationals in
place of `float`). -/
def thermistor_to_temperature (adc_value : Nat) : ℚ :=
  let min_temp : ℚ := 70.0
  let max_temp : ℚ := 125.0
  min_temp + ((adc_value : ℚ) / 1023.0) * (max_temp - min_temp)

/-- `setpoint_to_temperature`, the arithmetic taken as exact. -/
def setpoint_to_temperature (adc_value : Nat) : ℚ :=
  let min_temp : ℚ := 50.0
  let max_temp : ℚ := 150.0
  min_temp + ((adc_value : ℚ) / 1023.0) * (max_temp - min_temp)

/-- `thermocouple_to_temperature`, the arithmetic taken as exact. -/
def thermocouple_to_temperature (adc_value : Nat) : ℚ :=
  let voltage : ℚ := ((adc_value : ℚ) / 1023.0) * 3.3
  let gain : ℚ := 10.0
  let sensitivity : ℚ := 41e-6
  let temp_C : ℚ := (voltage / gain) / sensitivity
  let temp_F : ℚ := temp_C * 9.0 / 5.0 + 32.0
  temp_F

/-- The cast `(unsigned int)x` of a non-negative value: the fractional part is
discarded. -/
def to_unsigned_int (x : ℚ) : Nat := ⌊x⌋₊

/-- The readings of one pass of the loop when `read_ADC` returns the samples
`thermistor`, `setpoint` and `thermocouple` on the three channels. -/
def sampled_readings (thermistor setpoint thermocouple : Nat) : Readings :=
  { boiler := to_unsigned_int (thermistor_to_temperature thermistor),
    setpoint := to_unsigned_int (setpoint_to_temperature setpoint),
    flame := to_unsigned_int (thermocouple_to_temperature thermocouple) }

/-- The two sensor reads that open every pass of the loop of `main`. -/
def read_temperatures (r : Readings) (s : State) : State :=
  let s := set_boiler_temp r.boiler (read_ADC THERMISTOR_CH s)
  set_set_point r.setpoint (read_ADC SETPOINT_CH s)

/-- One pass of the `while (1)` loop of `main` (one poll cycle).  The
`continue` of the first branch skips the polling delay. -/
def poll_cycle (r : Readings) (s : State) : State :=
  let s := read_temperatures r s
  if s.boiler_temp ≥ s.set_point then
    update_status_LED UP_TO_TEMP (turn_everything_off s)
  else
    let s : State :=
      if s.call_for_heat_flag ≠ 0 ∧ s.boiler_temp < s.set_point then
        ignition_sequence r.flame (update_status_LED HEATING s)
      else
        update_status_LED STANDBY s
    delay_cycles 100000 s

/-! ## Environment and reachable states -/

/-- Hardware behaviour outside the source: a qualifying edge on P1.2 latches
the port interrupt flag, which is what makes the ISR run. -/
def call_for_heat_edge (s : State) : State :=
  { s with P1IFG := (s.P1IFG ||| CALL_FOR_HEAT) % 256 }

/-- The state when `main` is entered: register contents are whatever the
hardware holds, the globals have their C initialisers (all zero). -/
def reset_state (p1ifg p2out p6out tb2ccr0 tb2ccr1 : Nat) : State :=
  { P1IFG := p1ifg, P2OUT := p2out, P6OUT := p6out,
    TB2CCR0 := tb2ccr0, TB2CCR1 := tb2ccr1,
    boiler_temp := 0, set_point := 0, flame_detected := 0,
    call_for_heat_flag := 0, log := [] }

/-- The prologue of `main`: the three initialisation calls. -/
def startup (s : State) : State :=
  init_TimerB_PWM (init_ADC ( init_GPIO s))

/-- States reachable from an initialised state by poll cycles with arbitrary
readings, call-for-heat edges and runs of the interrupt handler. -/
inductive Reachable : State → Prop where
  | init (p1ifg p2out p6out tb2ccr0 tb2ccr1 : Nat) :
      Reachable (startup (reset_state p1ifg p2out p6out tb2ccr0 tb2ccr1))
  | poll (r : Readings) {s : State} : Reachable s → Reachable (poll_cycle r s)
  | edge {s : State} : Reachable s → Reachable (call_for_heat_edge s)
  | isr {s : State} : Reachable s → Reachable (Port_1_ISR s)

/-! ## Observations -/

/-- The igniter output P2.0 is driven high. -/
def igniter_on (s : State) : Bool := s.P2OUT &&& IGNITOR_LED != 0

/-- The pilot-valve output P2.5 is driven high. -/
def pilot_valve_on (s : State) : Bool := s.P2OUT &&& PILOT_VALVE != 0

/-- The three colour bits of the indicator port. -/
def indicator (s : State) : Nat :=
  s.P6OUT &&& (STATUS_RED ||| STATUS_GREEN ||| STATUS_BLUE)

/-- The call-for-heat latch is set (the flag is tested for being non-zero). -/
def latch (s : State) : Bool := s.call_for_heat_flag != 0

/-- The events appended to the log in going from `s` to `t`. -/
def emitted (s t : State) : List Event := t.log.drop s.log.length

/-- The state in which `ignition_sequence` takes its flame decision: pilot
valve opened, blink loop run, thermocouple read and stored. -/
def flame_check_state (flame : Nat) (s : State) : State :=
  set_flame_detected flame
    (read_ADC THERMOCOUPLE_CH (ignition_blink 10 (P2OUT_bis PILOT_VALVE s)))

/-- The status of spec section 4.2, in the spec's words: UpToTemperature when
`boiler_temp >= setpoint`, else Heating when the latch is set, else Standby. -/
def resolved_status (latch_set : Bool) (boiler_temp set_point : Nat) : Nat :=
  if boiler_temp ≥ set_point then UP_TO_TEMP
  else if latch_set then HEATING
  else STANDBY

/-- The colour of spec section 4.5 for a status: blue for Standby, red for
Heating, green for UpToTemperature. -/
def status_colour (status : Nat) : Nat :=
  match status with
  | 0 => STATUS_BLUE
  | 1 => STATUS_RED
  | 2 => STATUS_GREEN
  | _ => 0

/-- The events recorded by `k` passes of the blink loop. -/
def blink_events : Nat → List Event
  | 0 => []
  | k + 1 => .toggle .P2OUT IGNITOR_LED :: .delay 100000 :: blink_events k

/-- A state with every output energised, all indicator colours lit, the valve
open and the latch set. -/
def energised : State :=
  { P1IFG := 0, P2OUT := 0x21, P6OUT := 0x07, TB2CCR0 := 19999, TB2CCR1 := 2500,
    boiler_temp := 0, set_point := 0, flame_detected := 0,
    call_for_heat_flag := 1, log := [] }

/-- A quiescent state: outputs off, valve closed, latch clear. -/
def quiescent : State :=
  { P1IFG := 0, P2OUT := 0, P6OUT := 0x04, TB2CCR0 := 19999, TB2CCR1 := 1000,
    boiler_temp := 0, set_point := 0, flame_detected := 0,
    call_for_heat_flag := 0, log := [] }

/-- The state after start-up from cleared registers, a call-for-heat edge and
the interrupt it raises: the latch is set, everything else is off. -/
def heat_called : State :=
  Port_1_ISR (call_for_heat_edge (startup (reset_state 0 0 0 0 0)))

/-- The state one poll cycle later, with boiler 60, setpoint 100 and a flame
reading of 45: the valve is open. -/
def heating : State := poll_cycle ⟨60, 100, 45⟩ heat_called

/-! ## Bit-level facts -/

theorem testBit_mod_256 (x i : Nat) :
    (x % 256).testBit i = (decide (i < 8) && x.testBit i) :=
  Nat.testBit_mod_two_pow x 8 i

theorem testBit_cpl (m i : Nat) :
    (cpl m).testBit i = (decide (i < 16) ^^ m.testBit i) := by
  have h : (0xFFFF : Nat) = 2 ^ 16 - 1 := rfl
  unfold cpl
  rw [h, Nat.testBit_xor, Nat.testBit_two_pow_sub_one]

theorem testBit_BIT0 (i : Nat) : BIT0.testBit i = decide (0 = i) :=
  @Nat.testBit_two_pow 0 i

theorem testBit_BIT1 (i : Nat) : BIT1.testBit i = decide (1 = i) :=
  @Nat.testBit_two_pow 1 i

theorem testBit_BIT2 (i : Nat) : BIT2.testBit i = decide (2 = i) :=
  @Nat.testBit_two_pow 2 i

theorem testBit_BIT5 (i : Nat) : BIT5.testBit i = decide (5 = i) :=
  @Nat.testBit_two_pow 5 i

/-- Testing a register against a one-bit mask `2 ^ k` reads bit `k`. -/
theorem land_two_pow_ne_zero (x k : Nat) :
    (x &&& 2 ^ k != 0) = x.testBit k := by
  cases h : x.testBit k
  · have h0 : x &&& 2 ^ k = 0 := by
      apply Nat.eq_of_testBit_eq
      intro i
      by_cases hi : k = i
      · subst hi; simp [h]
      · simp [Nat.testBit_two_pow, hi]
    simp [h0]
  · have h1 : x &&& 2 ^ k ≠ 0 := by
      intro h0
      have hb := congrArg (fun n => Nat.testBit n k) h0
      simp [Nat.testBit_two_pow, h] at hb
    simpa using h1

theorem igniter_on_eq (s : State) : igniter_on s = s.P2OUT.testBit 0 :=
  land_two_pow_ne_zero s.P2OUT 0

theorem pilot_valve_on_eq (s : State) : pilot_valve_on s = s.P2OUT.testBit 5 :=
  land_two_pow_ne_zero s.P2OUT 5

/-! ## Effect of each statement on each field -/

@[simp]
theorem P1IFG_bic_fields (m : Nat) (s : State) :
    (P1IFG_bic m s).P1IFG = (s.P1IFG &&& cpl m) % 256 ∧
    (P1IFG_bic m s).P2OUT = s.P2OUT ∧
    (P1IFG_bic m s).P6OUT = s.P6OUT ∧
    (P1IFG_bic m s).TB2CCR0 = s.TB2CCR0 ∧
    (P1IFG_bic m s).TB2CCR1 = s.TB2CCR1 ∧
    (P1IFG_bic m s).boiler_temp = s.boiler_temp ∧
    (P1IFG_bic m s).set_point = s.set_point ∧
    (P1IFG_bic m s).flame_detected = s.flame_detected ∧
    (P1IFG_bic m s).call_for_heat_flag = s.call_for_heat_flag ∧
    (P1IFG_bic m s).log = s.log ++ [.clear .P1IFG m] := by
  simp [P1IFG_bic, emit]

@[simp]
theorem P2OUT_bis_fields (m : Nat) (s : State) :
    (P2OUT_bis m s).P1IFG = s.P1IFG ∧
    (P2OUT_bis m s).P2OUT = (s.P2OUT ||| m) % 256 ∧
    (P2OUT_bis m s).P6OUT = s.P6OUT ∧
    (P2OUT_bis m s).TB2CCR0 = s.TB2CCR0 ∧
    (P2OUT_bis m s).TB2CCR1 = s.TB2CCR1 ∧
    (P2OUT_bis m s).boiler_temp = s.boiler_temp ∧
    (P2OUT_bis m s).set_point = s.set_point ∧
    (P2OUT_bis m s).flame_detected = s.flame_detected ∧
    (P2OUT_bis m s).call_for_heat_flag = s.call_for_heat_flag ∧
    (P2OUT_bis m s).log = s.log ++ [.set .P2OUT m] := by
  simp [P2OUT_bis, emit]

@[simp]
theorem P2OUT_bic_fields (m : Nat) (s : State) :
    (P2OUT_bic m s).P1IFG = s.P1IFG ∧
    (P2OUT_bic m s).P2OUT = (s.P2OUT &&& cpl m) % 256 ∧
    (P2OUT_bic m s).P6OUT = s.P6OUT ∧
    (P2OUT_bic m s).TB2CCR0 = s.TB2CCR0 ∧
    (P2OUT_bic m s).TB2CCR1 = s.TB2CCR1 ∧
    (P2OUT_bic m s).boiler_temp = s.boiler_temp ∧
    (P2OUT_bic m s).set_point = s.set_point ∧
    (P2OUT_bic m s).flame_detected = s.flame_detected ∧
    (P2OUT_bic m s).call_for_heat_flag = s.call_for_heat_flag ∧
    (P2OUT_bic m s).log = s.log ++ [.clear .P2OUT m] := by
  simp [P2OUT_bic, emit]

@[simp]
theorem P2OUT_xor_fields (m : Nat) (s : State) :
    (P2OUT_xor m s).P1IFG = s.P1IFG ∧
    (P2OUT_xor m s).P2OUT = (s.P2OUT ^^^ m) % 256 ∧
    (P2OUT_xor m s).P6OUT = s.P6OUT ∧
    (P2OUT_xor m s).TB2CCR0 = s.TB2CCR0 ∧
    (P2OUT_xor m s).TB2CCR1 = s.TB2CCR1 ∧
    (P2OUT_xor m s).boiler_temp = s.boiler_temp ∧
    (P2OUT_xor m s).set_point = s.set_point ∧
    (P2OUT_xor m s).flame_detected = s.flame_detected ∧
    (P2OUT_xor m s).call_for_heat_flag = s.call_for_heat_flag ∧
    (P2OUT_xor m s).log = s.log ++ [.toggle .P2OUT m] := by
  simp [P2OUT_xor, emit]

@[simp]
theorem P6OUT_bis_fields (m : Nat) (s : State) :
    (P6OUT_bis m s).P1IFG = s.P1IFG ∧
    (P6OUT_bis m s).P2OUT = s.P2OUT ∧
    (P6OUT_bis m s).P6OUT = (s.P6OUT ||| m) % 256 ∧
    (P6OUT_bis m s).TB2CCR0 = s.TB2CCR0 ∧
    (P6OUT_bis m s).TB2CCR1 = s.TB2CCR1 ∧
    (P6OUT_bis m s).boiler_temp = s.boiler_temp ∧
    (P6OUT_bis m s).set_point = s.set_point ∧
    (P6OUT_bis m s).flame_detected = s.flame_detected ∧
    (P6OUT_bis m s).call_for_heat_flag = s.call_for_heat_flag ∧
    (P6OUT_bis m s).log = s.log ++ [.set .P6OUT m] := by
  simp [P6OUT_bis, emit]

@[simp]
theorem P6OUT_bic_fields (m : Nat) (s : State) :
    (P6OUT_bic m s).P1IFG = s.P1IFG ∧
    (P6OUT_bic m s).P2OUT = s.P2OUT ∧
    (P6OUT_bic m s).P6OUT = (s.P6OUT &&& cpl m) % 256 ∧
    (P6OUT_bic m s).TB2CCR0 = s.TB2CCR0 ∧
    (P6OUT_bic m s).TB2CCR1 = s.TB2CCR1 ∧
    (P6OUT_bic m s).boiler_temp = s.boiler_temp ∧
    (P6OUT_bic m s).set_point = s.set_point ∧
    (P6OUT_bic m s).flame_detected = s.flame_detected ∧
    (P6OUT_bic m s).call_for_heat_flag = s.call_for_heat_flag ∧
    (P6OUT_bic m s).log = s.log ++ [.clear .P6OUT m] := by
  simp [P6OUT_bic, emit]

@[simp]
theorem set_TB2CCR0_fields (v : Nat) (s : State) :
    (set_TB2CCR0 v s).P1IFG = s.P1IFG ∧
    (set_TB2CCR0 v s).P2OUT = s.P2OUT ∧
    (set_TB2CCR0 v s).P6OUT = s.P6OUT ∧
    (set_TB2CCR0 v s).TB2CCR0 = v % 65536 ∧
    (set_TB2CCR0 v s).TB2CCR1 = s.TB2CCR1 ∧
    (set_TB2CCR0 v s).boiler_temp = s.boiler_temp ∧
    (set_TB2CCR0 v s).set_point = s.set_point ∧
    (set_TB2CCR0 v s).flame_detected = s.flame_detected ∧
    (set_TB2CCR0 v s).call_for_heat_flag = s.call_for_heat_flag ∧
    (set_TB2CCR0 v s).log = s.log ++ [.store .TB2CCR0 v] := by
  simp [set_TB2CCR0, emit]

@[simp]
theorem set_TB2CCR1_fields (v : Nat) (s : State) :
    (set_TB2CCR1 v s).P1IFG = s.P1IFG ∧
    (set_TB2CCR1 v s).P2OUT = s.P2OUT ∧
    (set_TB2CCR1 v s).P6OUT = s.P6OUT ∧
    (set_TB2CCR1 v s).TB2CCR0 = s.TB2CCR0 ∧
    (set_TB2CCR1 v s).TB2CCR1 = v % 65536 ∧
    (set_TB2CCR1 v s).boiler_temp = s.boiler_temp ∧
    (set_TB2CCR1 v s).set_point = s.set_point ∧
    (set_TB2CCR1 v s).flame_detected = s.flame_detected ∧
    (set_TB2CCR1 v s).call_for_heat_flag = s.call_for_heat_flag ∧
    (set_TB2CCR1 v s).log = s.log ++ [.store .TB2CCR1 v] := by
  simp [set_TB2CCR1, emit]

@[simp]
theorem set_call_for_heat_flag_fields (v : Nat) (s : State) :
    (set_call_for_heat_flag v s).P1IFG = s.P1IFG ∧
    (set_call_for_heat_flag v s).P2OUT = s.P2OUT ∧
    (set_call_for_heat_flag v s).P6OUT = s.P6OUT ∧
    (set_call_for_heat_flag v s).TB2CCR0 = s.TB2CCR0 ∧
    (set_call_for_heat_flag v s).TB2CCR1 = s.TB2CCR1 ∧
    (set_call_for_heat_flag v s).boiler_temp = s.boiler_temp ∧
    (set_call_for_heat_flag v s).set_point = s.set_point ∧
    (set_call_for_heat_flag v s).flame_detected = s.flame_detected ∧
    (set_call_for_heat_flag v s).call_for_heat_flag = v % 256 ∧
    (set_call_for_heat_flag v s).log = s.log ++ [.store .call_for_heat_flag v] := by
  simp [set_call_for_heat_flag, emit]

@[simp]
theorem set_boiler_temp_fields (v : Nat) (s : State) :
    (set_boiler_temp v s).P1IFG = s.P1IFG ∧
    (set_boiler_temp v s).P2OUT = s.P2OUT ∧
    (set_boiler_temp v s).P6OUT = s.P6OUT ∧
    (set_boiler_temp v s).TB2CCR0 = s.TB2CCR0 ∧
    (set_boiler_temp v s).TB2CCR1 = s.TB2CCR1 ∧
    (set_boiler_temp v s).boiler_temp = v ∧
    (set_boiler_temp v s).set_point = s.set_point ∧
    (set_boiler_temp v s).flame_detected = s.flame_detected ∧
    (set_boiler_temp v s).call_for_heat_flag = s.call_for_heat_flag ∧
    (set_boiler_temp v s).log = s.log := by
  simp [set_boiler_temp, emit]

@[simp]
theorem set_set_point_fields (v : Nat) (s : State) :
    (set_set_point v s).P1IFG = s.P1IFG ∧
    (set_set_point v s).P2OUT = s.P2OUT ∧
    (set_set_point v s).P6OUT = s.P6OUT ∧
    (set_set_point v s).TB2CCR0 = s.TB2CCR0 ∧
    (set_set_point v s).TB2CCR1 = s.TB2CCR1 ∧
    (set_set_point v s).boiler_temp = s.boiler_temp ∧
    (set_set_point v s).set_point = v ∧
    (set_set_point v s).flame_detected = s.flame_detected ∧
    (set_set_point v s).call_for_heat_flag = s.call_for_heat_flag ∧
    (set_set_point v s).log = s.log := by
  simp [set_set_point, emit]

@[simp]
theorem set_flame_detected_fields (v : Nat) (s : State) :
    (set_flame_detected v s).P1IFG = s.P1IFG ∧
    (set_flame_detected v s).P2OUT = s.P2OUT ∧
    (set_flame_detected v s).P6OUT = s.P6OUT ∧
    (set_flame_detected v s).TB2CCR0 = s.TB2CCR0 ∧
    (set_flame_detected v s).TB2CCR1 = s.TB2CCR1 ∧
    (set_flame_detected v s).boiler_temp = s.boiler_temp ∧
    (set_flame_detected v s).set_point = s.set_point ∧
    (set_flame_detected v s).flame_detected = v ∧
    (set_flame_detected v s).call_for_heat_flag = s.call_for_heat_flag ∧
    (set_flame_detected v s).log = s.log := by
  simp [set_flame_detected, emit]

@[simp]
theorem delay_cycles_fields (n : Nat) (s : State) :
    (delay_cycles n s).P1IFG = s.P1IFG ∧
    (delay_cycles n s).P2OUT = s.P2OUT ∧
    (delay_cycles n s).P6OUT = s.P6OUT ∧
    (delay_cycles n s).TB2CCR0 = s.TB2CCR0 ∧
    (delay_cycles n s).TB2CCR1 = s.TB2CCR1 ∧
    (delay_cycles n s).boiler_temp = s.boiler_temp ∧
    (delay_cycles n s).set_point = s.set_point ∧
    (delay_cycles n s).flame_detected = s.flame_detected ∧
    (delay_cycles n s).call_for_heat_flag = s.call_for_heat_flag ∧
    (delay_cycles n s).log = s.log ++ [.delay n] := by
  simp [delay_cycles, emit]

@[simp]
theorem read_ADC_fields (ch : Nat) (s : State) :
    (read_ADC ch s).P1IFG = s.P1IFG ∧
    (read_ADC ch s).P2OUT = s.P2OUT ∧
    (read_ADC ch s).P6OUT = s.P6OUT ∧
    (read_ADC ch s).TB2CCR0 = s.TB2CCR0 ∧
    (read_ADC ch s).TB2CCR1 = s.TB2CCR1 ∧
    (read_ADC ch s).boiler_temp = s.boiler_temp ∧
    (read_ADC ch s).set_point = s.set_point ∧
    (read_ADC ch s).flame_detected = s.flame_detected ∧
    (read_ADC ch s).call_for_heat_flag = s.call_for_heat_flag ∧
    (read_ADC ch s).log = s.log ++ [.adc ch] := by
  simp [read_ADC, emit]

/-! ## Effects of the procedures -/

theorem turn_everything_off_fields (s : State) :
    (turn_everything_off s).P1IFG = s.P1IFG ∧
    (turn_everything_off s).P2OUT = (s.P2OUT &&& cpl (IGNITOR_LED ||| PILOT_VALVE)) % 256 ∧
    (turn_everything_off s).P6OUT = s.P6OUT ∧
    (turn_everything_off s).TB2CCR0 = s.TB2CCR0 ∧
    (turn_everything_off s).TB2CCR1 = 1000 ∧
    (turn_everything_off s).boiler_temp = s.boiler_temp ∧
    (turn_everything_off s).set_point = s.set_point ∧
    (turn_everything_off s).flame_detected = s.flame_detected ∧
    (turn_everything_off s).call_for_heat_flag = 0 ∧
    (turn_everything_off s).log = s.log ++
      [.clear .P2OUT (IGNITOR_LED ||| PILOT_VALVE), .store .TB2CCR1 1000,
       .store .call_for_heat_flag 0] := by
  simp [turn_everything_off]

theorem turn_everything_off_igniter (s : State) :
    igniter_on (turn_everything_off s) = false := by
  rw [igniter_on_eq, (turn_everything_off_fields s).2.1]
  simp [-Nat.testBit_zero, testBit_mod_256, testBit_cpl, IGNITOR_LED, PILOT_VALVE,
    testBit_BIT0, testBit_BIT5]

theorem turn_everything_off_pilot (s : State) :
    pilot_valve_on (turn_everything_off s) = false := by
  rw [pilot_valve_on_eq, (turn_everything_off_fields s).2.1]
  simp [testBit_mod_256, testBit_cpl, IGNITOR_LED, PILOT_VALVE, testBit_BIT0, testBit_BIT5]

/-- `update_status_LED` writes the indicator port and the log only. -/
theorem update_status_LED_frame (st : Nat) (s : State) :
    (update_status_LED st s).P1IFG = s.P1IFG ∧
    (update_status_LED st s).P2OUT = s.P2OUT ∧
    (update_status_LED st s).TB2CCR0 = s.TB2CCR0 ∧
    (update_status_LED st s).TB2CCR1 = s.TB2CCR1 ∧
    (update_status_LED st s).boiler_temp = s.boiler_temp ∧
    (update_status_LED st s).set_point = s.set_point ∧
    (update_status_LED st s).flame_detected = s.flame_detected ∧
    (update_status_LED st s).call_for_heat_flag = s.call_for_heat_flag := by
  unfold update_status_LED
  split <;> simp

theorem update_status_LED_igniter (st : Nat) (s : State) :
    igniter_on (update_status_LED st s) = igniter_on s := by
  simp [igniter_on, update_status_LED_frame]

theorem update_status_LED_pilot (st : Nat) (s : State) :
    pilot_valve_on (update_status_LED st s) = pilot_valve_on s := by
  simp [pilot_valve_on, update_status_LED_frame]

theorem update_status_LED_latch (st : Nat) (s : State) :
    latch (update_status_LED st s) = latch s := by
  simp [latch, update_status_LED_frame]

/-- The indicator after `update_status_LED`, for the three statuses. -/
theorem update_status_LED_indicator (s : State) :
    indicator (update_status_LED STANDBY s) = STATUS_BLUE ∧
    indicator (update_status_LED HEATING s) = STATUS_RED ∧
    indicator (update_status_LED UP_TO_TEMP s) = STATUS_GREEN := by
  refine ⟨?_, ?_, ?_⟩ <;>
  · apply Nat.eq_of_testBit_eq
    intro i
    simp only [indicator, update_status_LED, STANDBY, HEATING, UP_TO_TEMP, P6OUT_bic_fields,
      P6OUT_bis_fields, Nat.testBit_and, Nat.testBit_or, testBit_mod_256, testBit_cpl,
      STATUS_RED, STATUS_BLUE, STATUS_GREEN, testBit_BIT0, testBit_BIT1, testBit_BIT2]
    match i with
    | 0 => simp
    | 1 => simp
    | 2 => simp
    | n + 3 => simp

theorem update_status_LED_log (s : State) :
    (update_status_LED STANDBY s).log = s.log ++
      [.set .P6OUT STATUS_BLUE, .clear .P6OUT (STATUS_RED ||| STATUS_GREEN)] ∧
    (update_status_LED HEATING s).log = s.log ++
      [.set .P6OUT STATUS_RED, .clear .P6OUT (STATUS_GREEN ||| STATUS_BLUE)] ∧
    (update_status_LED UP_TO_TEMP s).log = s.log ++
      [.set .P6OUT STATUS_GREEN, .clear .P6OUT (STATUS_RED ||| STATUS_BLUE)] := by
  simp [update_status_LED, STANDBY, HEATING, UP_TO_TEMP]

/-- The blink loop writes the igniter/pilot port and the log only. -/
theorem ignition_blink_frame (k : Nat) (s : State) :
    (ignition_blink k s).P1IFG = s.P1IFG ∧
    (ignition_blink k s).P6OUT = s.P6OUT ∧
    (ignition_blink k s).TB2CCR0 = s.TB2CCR0 ∧
    (ignition_blink k s).TB2CCR1 = s.TB2CCR1 ∧
    (ignition_blink k s).boiler_temp = s.boiler_temp ∧
    (ignition_blink k s).set_point = s.set_point ∧
    (ignition_blink k s).flame_detected = s.flame_detected ∧
    (ignition_blink k s).call_for_heat_flag = s.call_for_heat_flag ∧
    (ignition_blink k s).log = s.log ++ blink_events k := by
  induction k generalizing s with
  | zero => simp [ignition_blink, blink_events]
  | succ k ih => simp [ignition_blink, ih, blink_events]

/-- Bits of P2OUT other than the igniter bit survive the blink loop (up to
the 8-bit width of the port once the loop has run at least once). -/
theorem ignition_blink_testBit (k i : Nat) (s : State) (hi : i ≠ 0) :
    (ignition_blink (k + 1) s).P2OUT.testBit i = (decide (i < 8) && s.P2OUT.testBit i) := by
  have h0 : ¬ 0 = i := fun h => hi h.symm
  induction k generalizing s with
  | zero => simp [ignition_blink, testBit_mod_256, IGNITOR_LED, testBit_BIT0, h0]
  | succ k ih =>
    rw [ignition_blink, ih]
    simp [testBit_mod_256, IGNITOR_LED, testBit_BIT0, h0]

/-- Two toggles return the igniter bit to its value, so an even number of
passes does. -/
theorem ignition_blink_even_igniter (k : Nat) (s : State) :
    (ignition_blink (2 * k) s).P2OUT.testBit 0 = s.P2OUT.testBit 0 := by
  induction k generalizing s with
  | zero => rfl
  | succ k ih =>
    have h2 : 2 * (k + 1) = (2 * k + 1) + 1 := by ring
    rw [h2, ignition_blink, ignition_blink, ih]
    simp [-Nat.testBit_zero, testBit_mod_256, IGNITOR_LED, testBit_BIT0]

theorem ignition_sequence_eq (flame : Nat) (s : State) :
    ignition_sequence flame s =
      if flame > 40 then set_TB2CCR1 2500 (flame_check_state flame s)
      else turn_everything_off (flame_check_state flame s) := by
  simp [ignition_sequence, flame_check_state]

theorem flame_check_state_fields (flame : Nat) (s : State) :
    (flame_check_state flame s).P1IFG = s.P1IFG ∧
    (flame_check_state flame s).P6OUT = s.P6OUT ∧
    (flame_check_state flame s).TB2CCR0 = s.TB2CCR0 ∧
    (flame_check_state flame s).TB2CCR1 = s.TB2CCR1 ∧
    (flame_check_state flame s).boiler_temp = s.boiler_temp ∧
    (flame_check_state flame s).set_point = s.set_point ∧
    (flame_check_state flame s).flame_detected = flame ∧
    (flame_check_state flame s).call_for_heat_flag = s.call_for_heat_flag ∧
    (flame_check_state flame s).log =
      s.log ++ (.set .P2OUT PILOT_VALVE :: blink_events 10 ++ [.adc THERMOCOUPLE_CH]) := by
  simp [flame_check_state, ignition_blink_frame]

theorem flame_check_state_igniter (flame : Nat) (s : State) :
    igniter_on (flame_check_state flame s) = igniter_on s := by
  rw [igniter_on_eq, igniter_on_eq]
  have hb := ignition_blink_even_igniter 5 (P2OUT_bis PILOT_VALVE s)
  simp only [flame_check_state, set_flame_detected_fields, read_ADC_fields]
  rw [hb]
  simp [-Nat.testBit_zero, testBit_mod_256, PILOT_VALVE, testBit_BIT5]

theorem flame_check_state_pilot (flame : Nat) (s : State) :
    pilot_valve_on (flame_check_state flame s) = true := by
  rw [pilot_valve_on_eq]
  have hb := ignition_blink_testBit 9 5 (P2OUT_bis PILOT_VALVE s) (by decide)
  simp only [flame_check_state, set_flame_detected_fields, read_ADC_fields]
  rw [hb]
  simp [testBit_mod_256, PILOT_VALVE, testBit_BIT5]

theorem ignition_sequence_P6OUT (flame : Nat) (s : State) :
    (ignition_sequence flame s).P6OUT = s.P6OUT := by
  rw [ignition_sequence_eq]
  split <;> simp [turn_everything_off_fields, flame_check_state_fields]

theorem ignition_sequence_log (flame : Nat) (s : State) :
    (ignition_sequence flame s).log = s.log ++
      (.set .P2OUT PILOT_VALVE :: blink_events 10 ++ .adc THERMOCOUPLE_CH ::
        (if flame > 40 then [.store .TB2CCR1 2500]
         else [.clear .P2OUT (IGNITOR_LED ||| PILOT_VALVE), .store .TB2CCR1 1000,
               .store .call_for_heat_flag 0])) := by
  rw [ignition_sequence_eq]
  split <;> simp [turn_everything_off_fields, flame_check_state_fields]

/-- A failed flame check ends in the state `turn_everything_off` produces. -/
theorem ignition_sequence_fail (flame : Nat) (s : State) (h : flame ≤ 40) :
    (ignition_sequence flame s).TB2CCR1 = 1000 ∧
    (ignition_sequence flame s).call_for_heat_flag = 0 ∧
    igniter_on (ignition_sequence flame s) = false ∧
    pilot_valve_on (ignition_sequence flame s) = false := by
  have h40 : ¬ flame > 40 := Nat.not_lt.mpr h
  rw [ignition_sequence_eq, if_neg h40]
  exact ⟨(turn_everything_off_fields _).2.2.2.2.1, (turn_everything_off_fields _).2.2.2.2.2.2.2.2.1,
    turn_everything_off_igniter _, turn_everything_off_pilot _⟩

/-- A passed flame check opens the valve, keeps the pilot valve open, and
leaves the igniter bit and the latch as they were. -/
theorem ignition_sequence_pass (flame : Nat) (s : State) (h : flame > 40) :
    (ignition_sequence flame s).TB2CCR1 = 2500 ∧
    (ignition_sequence flame s).call_for_heat_flag = s.call_for_heat_flag ∧
    igniter_on (ignition_sequence flame s) = igniter_on s ∧
    pilot_valve_on (ignition_sequence flame s) = true := by
  rw [ignition_sequence_eq, if_pos h]
  refine ⟨by simp, by simp [flame_check_state_fields], ?_, ?_⟩
  · rw [← flame_check_state_igniter flame s]
    simp [igniter_on]
  · rw [← flame_check_state_pilot flame s]
    simp [pilot_valve_on]

/-! ## The three branches of a poll cycle -/

theorem read_temperatures_fields (r : Readings) (s : State) :
    (read_temperatures r s).P1IFG = s.P1IFG ∧
    (read_temperatures r s).P2OUT = s.P2OUT ∧
    (read_temperatures r s).P6OUT = s.P6OUT ∧
    (read_temperatures r s).TB2CCR0 = s.TB2CCR0 ∧
    (read_temperatures r s).TB2CCR1 = s.TB2CCR1 ∧
    (read_temperatures r s).boiler_temp = r.boiler ∧
    (read_temperatures r s).set_point = r.setpoint ∧
    (read_temperatures r s).flame_detected = s.flame_detected ∧
    (read_temperatures r s).call_for_heat_flag = s.call_for_heat_flag ∧
    (read_temperatures r s).log = s.log ++ [.adc THERMISTOR_CH, .adc SETPOINT_CH] := by
  simp [read_temperatures]

theorem poll_cycle_up_to_temp (r : Readings) (s : State) (h : r.boiler ≥ r.setpoint) :
    poll_cycle r s =
      update_status_LED UP_TO_TEMP (turn_everything_off (read_temperatures r s)) := by
  simp [poll_cycle, read_temperatures_fields, h]

theorem poll_cycle_heating (r : Readings) (s : State) (h : r.boiler < r.setpoint)
    (hl : s.call_for_heat_flag ≠ 0) :
    poll_cycle r s =
      delay_cycles 100000
        (ignition_sequence r.flame (update_status_LED HEATING (read_temperatures r s))) := by
  simp [poll_cycle, read_temperatures_fields, h, hl]

theorem poll_cycle_standby (r : Readings) (s : State) (h : r.boiler < r.setpoint)
    (hl : s.call_for_heat_flag = 0) :
    poll_cycle r s =
      delay_cycles 100000 (update_status_LED STANDBY (read_temperatures r s)) := by
  simp [poll_cycle, read_temperatures_fields, h, hl]

theorem latch_eq_true (s : State) : latch s = true ↔ s.call_for_heat_flag ≠ 0 := by
  simp [latch]

theorem latch_eq_false (s : State) : latch s = false ↔ s.call_for_heat_flag = 0 := by
  simp [latch]

theorem emitted_append (s t : State) (l : List Event) (h : t.log = s.log ++ l) :
    emitted s t = l := by
  simp [emitted, h]

/-! ## The claims -/

/-- C1: when the boiler reading is at or above the setpoint reading, one poll
cycle leaves the valve pulse width at 1000, the igniter and pilot-valve outputs
off and the latch false, whatever the state before; its result is
`turn_everything_off` followed by `update_status_LED(UP_TO_TEMP)` applied after
the two sensor reads, and the only accesses of the cycle are those of these
calls (no ignition sequence runs). -/
theorem poll_cycle_up_to_temp_shuts_down (r : Readings) (s : State)
    (h : r.boiler ≥ r.setpoint) :
    (poll_cycle r s).TB2CCR1 = 1000 ∧
    igniter_on (poll_cycle r s) = false ∧
    pilot_valve_on (poll_cycle r s) = false ∧
    latch (poll_cycle r s) = false ∧
    poll_cycle r s =
      update_status_LED UP_TO_TEMP (turn_everything_off (read_temperatures r s)) ∧
    emitted s (poll_cycle r s) =
      [.adc THERMISTOR_CH, .adc SETPOINT_CH,
       .clear .P2OUT (IGNITOR_LED ||| PILOT_VALVE), .store .TB2CCR1 1000,
       .store .call_for_heat_flag 0,
       .set .P6OUT STATUS_GREEN, .clear .P6OUT (STATUS_RED ||| STATUS_BLUE)] := by
  have hp := poll_cycle_up_to_temp r s h
  refine ⟨?_, ?_, ?_, ?_, hp, ?_⟩
  · rw [hp, (update_status_LED_frame _ _).2.2.2.1]
    exact (turn_everything_off_fields _).2.2.2.2.1
  · rw [hp, update_status_LED_igniter]
    exact turn_everything_off_igniter _
  · rw [hp, update_status_LED_pilot]
    exact turn_everything_off_pilot _
  · rw [hp, update_status_LED_latch, latch_eq_false]
    exact (turn_everything_off_fields _).2.2.2.2.2.2.2.2.1
  · apply emitted_append
    rw [hp]
    simp [update_status_LED_log, turn_everything_off_fields, read_temperatures_fields]

/-- Witness for C1: boiler 110, setpoint 100, every output energised and the
latch set beforehand. -/
theorem poll_cycle_up_to_temp_shuts_down_witness :
    (110 ≥ 100) ∧
    (poll_cycle ⟨110, 100, 0⟩ energised).TB2CCR1 = 1000 ∧
    igniter_on (poll_cycle ⟨110, 100, 0⟩ energised) = false ∧
    pilot_valve_on (poll_cycle ⟨110, 100, 0⟩ energised) = false ∧
    latch (poll_cycle ⟨110, 100, 0⟩ energised) = false ∧
    poll_cycle ⟨110, 100, 0⟩ energised =
      update_status_LED UP_TO_TEMP
        (turn_everything_off (read_temperatures ⟨110, 100, 0⟩ energised)) ∧
    emitted energised (poll_cycle ⟨110, 100, 0⟩ energised) =
      [.adc THERMISTOR_CH, .adc SETPOINT_CH,
       .clear .P2OUT (IGNITOR_LED ||| PILOT_VALVE), .store .TB2CCR1 1000,
       .store .call_for_heat_flag 0,
       .set .P6OUT STATUS_GREEN, .clear .P6OUT (STATUS_RED ||| STATUS_BLUE)] :=
  ⟨by decide, poll_cycle_up_to_temp_shuts_down ⟨110, 100, 0⟩ energised (by decide)⟩

/-- C2: with the latch set and the boiler reading below the setpoint reading,
a flame reading of at most 40 ends the poll cycle with the pilot valve and the
igniter off, the valve pulse width at 1000 and the latch false, and no access
of the cycle stores 2500 to TB2CCR1. -/
theorem poll_cycle_failed_ignition (r : Readings) (s : State)
    (hl : latch s = true) (ht : r.boiler < r.setpoint) (hf : r.flame ≤ 40) :
    pilot_valve_on (poll_cycle r s) = false ∧
    igniter_on (poll_cycle r s) = false ∧
    (poll_cycle r s).TB2CCR1 = 1000 ∧
    latch (poll_cycle r s) = false ∧
    Event.store .TB2CCR1 2500 ∉ emitted s (poll_cycle r s) := by
  have hp := poll_cycle_heating r s ht ((latch_eq_true s).1 hl)
  have hi := ignition_sequence_fail r.flame
    (update_status_LED HEATING (read_temperatures r s)) hf
  have h40 : ¬ r.flame > 40 := Nat.not_lt.mpr hf
  refine ⟨?_, ?_, ?_, ?_, ?_⟩
  · rw [hp]
    simpa [pilot_valve_on] using hi.2.2.2
  · rw [hp]
    simpa [igniter_on] using hi.2.2.1
  · rw [hp]
    simpa using hi.1
  · rw [hp, latch_eq_false]
    simpa using hi.2.1
  · rw [emitted_append s (poll_cycle r s) _ (by
      rw [hp]
      simp only [delay_cycles_fields, ignition_sequence_log, update_status_LED_log,
        read_temperatures_fields, if_neg h40, List.append_assoc]
      rfl)]
    simp [blink_events]

/-- Witness for C2: latch set, boiler 60, setpoint 100, flame 10. -/
theorem poll_cycle_failed_ignition_witness :
    latch energised = true ∧ (60 < 100) ∧ (10 ≤ 40) ∧
    pilot_valve_on (poll_cycle ⟨60, 100, 10⟩ energised) = false ∧
    igniter_on (poll_cycle ⟨60, 100, 10⟩ energised) = false ∧
    (poll_cycle ⟨60, 100, 10⟩ energised).TB2CCR1 = 1000 ∧
    latch (poll_cycle ⟨60, 100, 10⟩ energised) = false ∧
    Event.store .TB2CCR1 2500 ∉ emitted energised (poll_cycle ⟨60, 100, 10⟩ energised) :=
  ⟨by decide, by decide, by decide,
    poll_cycle_failed_ignition ⟨60, 100, 10⟩ energised (by decide) (by decide) (by decide)⟩

/-- C3, as stated, fails: with the latch set, boiler 60, setpoint 100 and a
flame reading of 45 the latch is still set when `ignition_sequence` returns
and when the cycle ends. -/
theorem latch_survives_successful_ignition :
    latch energised = true ∧ (60 < 100) ∧
    latch (ignition_sequence 45
      (update_status_LED HEATING (read_temperatures ⟨60, 100, 45⟩ energised))) = true ∧
    latch (poll_cycle ⟨60, 100, 45⟩ energised) = true := by
  decide

/-- C3, amended: with the latch set and the boiler reading below the setpoint
reading, the latch is false immediately after `ignition_sequence` returns (and
at the end of the cycle) when the flame check fails; when the flame check
succeeds `ignition_sequence` leaves the latch as it was, so it is still set. -/
theorem latch_after_ignition_sequence (r : Readings) (s : State)
    (hl : latch s = true) (ht : r.boiler < r.setpoint) :
    (r.flame ≤ 40 →
      latch (ignition_sequence r.flame
        (update_status_LED HEATING (read_temperatures r s))) = false ∧
      latch (poll_cycle r s) = false) ∧
    (r.flame > 40 →
      latch (ignition_sequence r.flame
        (update_status_LED HEATING (read_temperatures r s))) = true ∧
      latch (poll_cycle r s) = true) := by
  have hnz := (latch_eq_true s).1 hl
  have hp := poll_cycle_heating r s ht hnz
  constructor
  · intro hf
    have hi := (ignition_sequence_fail r.flame
      (update_status_LED HEATING (read_temperatures r s)) hf).2.1
    refine ⟨(latch_eq_false _).2 hi, ?_⟩
    rw [hp, latch_eq_false]
    simpa using hi
  · intro hf
    have hi := (ignition_sequence_pass r.flame
      (update_status_LED HEATING (read_temperatures r s)) hf).2.1
    rw [(update_status_LED_frame _ _).2.2.2.2.2.2.2,
      (read_temperatures_fields r s).2.2.2.2.2.2.2.2.1] at hi
    have hi' : (ignition_sequence r.flame
        (update_status_LED HEATING (read_temperatures r s))).call_for_heat_flag ≠ 0 := by
      rw [hi]; exact hnz
    refine ⟨(latch_eq_true _).2 hi', ?_⟩
    rw [hp, latch_eq_true]
    simpa using hi'

/-- Witness for the amended C3: latch set, boiler 60, setpoint 100, flame 45. -/
theorem latch_after_ignition_sequence_witness :
    latch energised = true ∧ (60 < 100) ∧
    ((45 ≤ 40 →
      latch (ignition_sequence 45
        (update_status_LED HEATING (read_temperatures ⟨60, 100, 45⟩ energised))) = false ∧
      latch (poll_cycle ⟨60, 100, 45⟩ energised) = false) ∧
    (45 > 40 →
      latch (ignition_sequence 45
        (update_status_LED HEATING (read_temperatures ⟨60, 100, 45⟩ energised))) = true ∧
      latch (poll_cycle ⟨60, 100, 45⟩ energised) = true)) :=
  ⟨by decide, by decide,
    latch_after_ignition_sequence ⟨60, 100, 45⟩ energised (by decide) (by decide)⟩

/-- C4: `ignition_sequence` stores the open pulse width 2500 to TB2CCR1 if and
only if the flame reading is strictly greater than 40, and otherwise runs
`turn_everything_off`; a reading of 40 shuts down, 41 opens the valve, 39
shuts down. -/
theorem ignition_sequence_opens_iff (flame : Nat) (s : State) :
    (Event.store .TB2CCR1 2500 ∈ emitted s (ignition_sequence flame s) ↔ flame > 40) ∧
    (flame > 40 →
      ignition_sequence flame s = set_TB2CCR1 2500 (flame_check_state flame s) ∧
      (ignition_sequence flame s).TB2CCR1 = 2500) ∧
    (¬ flame > 40 →
      ignition_sequence flame s = turn_everything_off (flame_check_state flame s) ∧
      (ignition_sequence flame s).TB2CCR1 = 1000) ∧
    ignition_sequence 40 s = turn_everything_off (flame_check_state 40 s) ∧
    ignition_sequence 41 s = set_TB2CCR1 2500 (flame_check_state 41 s) ∧
    ignition_sequence 39 s = turn_everything_off (flame_check_state 39 s) := by
  refine ⟨?_, ?_, ?_, ?_, ?_, ?_⟩
  · rw [emitted_append s _ _ (ignition_sequence_log flame s)]
    by_cases h : flame > 40 <;> simp [h, blink_events]
  · intro h
    rw [ignition_sequence_eq, if_pos h]
    exact ⟨rfl, by simp⟩
  · intro h
    rw [ignition_sequence_eq, if_neg h]
    exact ⟨rfl, (turn_everything_off_fields _).2.2.2.2.1⟩
  · rw [ignition_sequence_eq, if_neg (by decide)]
  · rw [ignition_sequence_eq, if_pos (by decide)]
  · rw [ignition_sequence_eq, if_neg (by decide)]

/-- C5: with the latch set, the boiler reading below the setpoint reading and a
flame reading above 40, the poll cycle ends with the pilot-valve output on, the
valve pulse width at 2500 and the indicator showing Heating (red on, green and
blue off), and the igniter output was toggled exactly 10 times. -/
theorem poll_cycle_successful_ignition (r : Readings) (s : State)
    (hl : latch s = true) (ht : r.boiler < r.setpoint) (hf : r.flame > 40) :
    pilot_valve_on (poll_cycle r s) = true ∧
    (poll_cycle r s).TB2CCR1 = 2500 ∧
    indicator (poll_cycle r s) = STATUS_RED ∧
    (emitted s (poll_cycle r s)).count (.toggle .P2OUT IGNITOR_LED) = 10 := by
  have hp := poll_cycle_heating r s ht ((latch_eq_true s).1 hl)
  have hi := ignition_sequence_pass r.flame
    (update_status_LED HEATING (read_temperatures r s)) hf
  refine ⟨?_, ?_, ?_, ?_⟩
  · rw [hp]
    simpa [pilot_valve_on] using hi.2.2.2
  · rw [hp]
    simpa using hi.1
  · have hr := (update_status_LED_indicator (read_temperatures r s)).2.1
    rw [hp]
    simpa [indicator, ignition_sequence_P6OUT] using hr
  · rw [emitted_append s (poll_cycle r s) _ (by
      rw [hp]
      simp only [delay_cycles_fields, ignition_sequence_log, update_status_LED_log,
        read_temperatures_fields, if_pos hf, List.append_assoc]
      rfl)]
    decide

/-- Witness for C5: latch set, boiler 60, setpoint 100, flame 45. -/
theorem poll_cycle_successful_ignition_witness :
    latch energised = true ∧ (60 < 100) ∧ (45 > 40) ∧
    pilot_valve_on (poll_cycle ⟨60, 100, 45⟩ energised) = true ∧
    (poll_cycle ⟨60, 100, 45⟩ energised).TB2CCR1 = 2500 ∧
    indicator (poll_cycle ⟨60, 100, 45⟩ energised) = STATUS_RED ∧
    (emitted energised (poll_cycle ⟨60, 100, 45⟩ energised)).count
      (.toggle .P2OUT IGNITOR_LED) = 10 :=
  ⟨by decide, by decide, by decide,
    poll_cycle_successful_ignition ⟨60, 100, 45⟩ energised (by decide) (by decide) (by decide)⟩

/-- C6: with the latch unset and the boiler reading below the setpoint reading,
one poll cycle sets the indicator to Standby and leaves P2OUT (igniter and
pilot valve), TB2CCR1 and the latch at their values before the cycle; its only
accesses are the two sensor reads, the two indicator writes and the delay. -/
theorem poll_cycle_standby_frame (r : Readings) (s : State)
    (hl : latch s = false) (ht : r.boiler < r.setpoint) :
    indicator (poll_cycle r s) = STATUS_BLUE ∧
    (poll_cycle r s).P2OUT = s.P2OUT ∧
    (poll_cycle r s).TB2CCR1 = s.TB2CCR1 ∧
    (poll_cycle r s).call_for_heat_flag = s.call_for_heat_flag ∧
    igniter_on (poll_cycle r s) = igniter_on s ∧
    pilot_valve_on (poll_cycle r s) = pilot_valve_on s ∧
    latch (poll_cycle r s) = latch s ∧
    emitted s (poll_cycle r s) =
      [.adc THERMISTOR_CH, .adc SETPOINT_CH,
       .set .P6OUT STATUS_BLUE, .clear .P6OUT (STATUS_RED ||| STATUS_GREEN),
       .delay 100000] := by
  have hp := poll_cycle_standby r s ht ((latch_eq_false s).1 hl)
  have h2 : (poll_cycle r s).P2OUT = s.P2OUT := by
    rw [hp]
    simp [update_status_LED_frame, read_temperatures_fields]
  have hf : (poll_cycle r s).call_for_heat_flag = s.call_for_heat_flag := by
    rw [hp]
    simp [update_status_LED_frame, read_temperatures_fields]
  refine ⟨?_, h2, ?_, hf, ?_, ?_, ?_, ?_⟩
  · have hr := (update_status_LED_indicator (read_temperatures r s)).1
    rw [hp]
    simpa [indicator] using hr
  · rw [hp]
    simp [update_status_LED_frame, read_temperatures_fields]
  · simp [igniter_on, h2]
  · simp [pilot_valve_on, h2]
  · simp [latch, hf]
  · apply emitted_append
    rw [hp]
    simp [update_status_LED_log, read_temperatures_fields]

/-- Witness for C6: latch clear, boiler 60, setpoint 100. -/
theorem poll_cycle_standby_frame_witness :
    latch quiescent = false ∧ (60 < 100) ∧
    indicator (poll_cycle ⟨60, 100, 0⟩ quiescent) = STATUS_BLUE ∧
    (poll_cycle ⟨60, 100, 0⟩ quiescent).P2OUT = quiescent.P2OUT ∧
    (poll_cycle ⟨60, 100, 0⟩ quiescent).TB2CCR1 = quiescent.TB2CCR1 ∧
    (poll_cycle ⟨60, 100, 0⟩ quiescent).call_for_heat_flag = quiescent.call_for_heat_flag ∧
    igniter_on (poll_cycle ⟨60, 100, 0⟩ quiescent) = igniter_on quiescent ∧
    pilot_valve_on (poll_cycle ⟨60, 100, 0⟩ quiescent) = pilot_valve_on quiescent ∧
    latch (poll_cycle ⟨60, 100, 0⟩ quiescent) = latch quiescent ∧
    emitted quiescent (poll_cycle ⟨60, 100, 0⟩ quiescent) =
      [.adc THERMISTOR_CH, .adc SETPOINT_CH,
       .set .P6OUT STATUS_BLUE, .clear .P6OUT (STATUS_RED ||| STATUS_GREEN),
       .delay 100000] :=
  ⟨by decide, by decide,
    poll_cycle_standby_frame ⟨60, 100, 0⟩ quiescent (by decide) (by decide)⟩

/-- C7: after every poll cycle the indicator shows the colour of the status
resolved from the latch (as it was when tested) and the two readings: green
when the boiler reading is at or above the setpoint reading, red when it is
below and the latch was set, blue otherwise; exactly one of the three cases
applies. -/
theorem indicator_shows_resolved_status (r : Readings) (s : State) :
    indicator (poll_cycle r s) =
      status_colour (resolved_status (latch s) r.boiler r.setpoint) ∧
    (r.boiler ≥ r.setpoint → indicator (poll_cycle r s) = STATUS_GREEN) ∧
    (r.boiler < r.setpoint ∧ latch s = true → indicator (poll_cycle r s) = STATUS_RED) ∧
    (r.boiler < r.setpoint ∧ latch s = false → indicator (poll_cycle r s) = STATUS_BLUE) ∧
    ((r.boiler ≥ r.setpoint ∧ ¬ (r.boiler < r.setpoint ∧ latch s = true) ∧
        ¬ (r.boiler < r.setpoint ∧ latch s = false)) ∨
     (¬ r.boiler ≥ r.setpoint ∧ (r.boiler < r.setpoint ∧ latch s = true) ∧
        ¬ (r.boiler < r.setpoint ∧ latch s = false)) ∨
     (¬ r.boiler ≥ r.setpoint ∧ ¬ (r.boiler < r.setpoint ∧ latch s = true) ∧
        (r.boiler < r.setpoint ∧ latch s = false))) := by
  have hg : r.boiler ≥ r.setpoint → indicator (poll_cycle r s) = STATUS_GREEN := by
    intro h
    have hr := (update_status_LED_indicator
      (turn_everything_off (read_temperatures r s))).2.2
    rw [poll_cycle_up_to_temp r s h]
    exact hr
  have hr : r.boiler < r.setpoint ∧ latch s = true →
      indicator (poll_cycle r s) = STATUS_RED := by
    intro h
    have hr := (update_status_LED_indicator (read_temperatures r s)).2.1
    rw [poll_cycle_heating r s h.1 ((latch_eq_true s).1 h.2)]
    simpa [indicator, ignition_sequence_P6OUT] using hr
  have hb : r.boiler < r.setpoint ∧ latch s = false →
      indicator (poll_cycle r s) = STATUS_BLUE := by
    intro h
    have hr := (update_status_LED_indicator (read_temperatures r s)).1
    rw [poll_cycle_standby r s h.1 ((latch_eq_false s).1 h.2)]
    simpa [indicator] using hr
  refine ⟨?_, hg, hr, hb, ?_⟩
  · by_cases h : r.boiler ≥ r.setpoint
    · rw [hg h]
      simp [resolved_status, h, status_colour, UP_TO_TEMP]
    · have hlt : r.boiler < r.setpoint := Nat.lt_of_not_le h
      cases hl : latch s
      · rw [hb ⟨hlt, hl⟩]
        simp [resolved_status, h, status_colour, STANDBY]
      · rw [hr ⟨hlt, hl⟩]
        simp [resolved_status, h, status_colour, HEATING]
  · by_cases h : r.boiler ≥ r.setpoint
    · have hn : ¬ r.boiler < r.setpoint := Nat.not_lt.mpr h
      simp [h, hn]
    · have hlt : r.boiler < r.setpoint := Nat.lt_of_not_le h
      cases hl : latch s <;> simp [h, hlt]

/-- Clearing the same mask twice is clearing it once. -/
theorem bic_bic (x m : Nat) :
    ((x &&& cpl m) % 256 &&& cpl m) % 256 = (x &&& cpl m) % 256 := by
  apply Nat.eq_of_testBit_eq
  intro i
  simp only [testBit_mod_256, Nat.testBit_and]
  cases decide (i < 8) <;> cases x.testBit i <;> cases (cpl m).testBit i <;> rfl

/-- C8: `turn_everything_off` is idempotent: run twice in a row it yields the
same igniter, pilot-valve, valve pulse-width, indicator and latch state (and
the same value of every other register and global) as run once. -/
theorem turn_everything_off_idempotent (s : State) :
    (turn_everything_off (turn_everything_off s)).P2OUT = (turn_everything_off s).P2OUT ∧
    (turn_everything_off (turn_everything_off s)).TB2CCR1 =
      (turn_everything_off s).TB2CCR1 ∧
    (turn_everything_off (turn_everything_off s)).P6OUT = (turn_everything_off s).P6OUT ∧
    (turn_everything_off (turn_everything_off s)).call_for_heat_flag =
      (turn_everything_off s).call_for_heat_flag ∧
    igniter_on (turn_everything_off (turn_everything_off s)) =
      igniter_on (turn_everything_off s) ∧
    pilot_valve_on (turn_everything_off (turn_everything_off s)) =
      pilot_valve_on (turn_everything_off s) ∧
    indicator (turn_everything_off (turn_everything_off s)) =
      indicator (turn_everything_off s) ∧
    latch (turn_everything_off (turn_everything_off s)) = latch (turn_everything_off s) ∧
    { turn_everything_off (turn_everything_off s) with log := (turn_everything_off s).log } =
      turn_everything_off s := by
  have h2 : (turn_everything_off (turn_everything_off s)).P2OUT =
      (turn_everything_off s).P2OUT := by
    rw [(turn_everything_off_fields (turn_everything_off s)).2.1,
      (turn_everything_off_fields s).2.1]
    exact bic_bic _ _
  have ht : (turn_everything_off (turn_everything_off s)).TB2CCR1 =
      (turn_everything_off s).TB2CCR1 := by
    simp [turn_everything_off_fields]
  have h6 : (turn_everything_off (turn_everything_off s)).P6OUT =
      (turn_everything_off s).P6OUT := by
    simp [turn_everything_off_fields]
  have hf : (turn_everything_off (turn_everything_off s)).call_for_heat_flag =
      (turn_everything_off s).call_for_heat_flag := by
    simp [turn_everything_off_fields]
  refine ⟨h2, ht, h6, hf, ?_, ?_, ?_, ?_, ?_⟩
  · simp [igniter_on, h2]
  · simp [pilot_valve_on, h2]
  · simp [indicator, h6]
  · simp [latch, hf]
  · have hs : ∀ a b : State, a.P1IFG = b.P1IFG → a.P2OUT = b.P2OUT → a.P6OUT = b.P6OUT →
        a.TB2CCR0 = b.TB2CCR0 → a.TB2CCR1 = b.TB2CCR1 → a.boiler_temp = b.boiler_temp →
        a.set_point = b.set_point → a.flame_detected = b.flame_detected →
        a.call_for_heat_flag = b.call_for_heat_flag → { a with log := b.log } = b := by
      intro a b h1 h2 h3 h4 h5 h6 h7 h8 h9
      cases a
      cases b
      simp_all
    apply hs
    · simp [turn_everything_off_fields]
    · exact h2
    · exact h6
    · simp [turn_everything_off_fields]
    · exact ht
    · simp [turn_everything_off_fields]
    · simp [turn_everything_off_fields]
    · simp [turn_everything_off_fields]
    · exact hf

theorem Port_1_ISR_TB2CCR1 (s : State) : (Port_1_ISR s).TB2CCR1 = s.TB2CCR1 := by
  unfold Port_1_ISR
  split <;> simp

theorem poll_cycle_TB2CCR1 (r : Readings) (s : State) :
    (poll_cycle r s).TB2CCR1 = 1000 ∨ (poll_cycle r s).TB2CCR1 = 2500 ∨
      (poll_cycle r s).TB2CCR1 = s.TB2CCR1 := by
  by_cases h : r.boiler ≥ r.setpoint
  · left
    rw [poll_cycle_up_to_temp r s h, (update_status_LED_frame _ _).2.2.2.1]
    exact (turn_everything_off_fields _).2.2.2.2.1
  · have hlt : r.boiler < r.setpoint := Nat.lt_of_not_le h
    by_cases hl : s.call_for_heat_flag = 0
    · right; right
      rw [poll_cycle_standby r s hlt hl]
      simp [update_status_LED_frame, read_temperatures_fields]
    · rw [poll_cycle_heating r s hlt hl]
      by_cases hf : r.flame > 40
      · right; left
        simpa using (ignition_sequence_pass r.flame _ hf).1
      · left
        simpa using (ignition_sequence_fail r.flame _ (Nat.le_of_not_lt hf)).1

/-- C9: the control core never sets the call-for-heat latch: from a state with
the latch false, the latch is false after one poll cycle, after
`turn_everything_off`, after `ignition_sequence` and after
`update_status_LED`; `Port_1_ISR`, run with the interrupt flag pending, makes
it true. -/
theorem core_never_sets_latch (r : Readings) (s : State) (h : latch s = false) :
    latch (poll_cycle r s) = false ∧
    latch (turn_everything_off s) = false ∧
    (∀ flame, latch (ignition_sequence flame s) = false) ∧
    (∀ status, latch (update_status_LED status s) = false) ∧
    (s.P1IFG &&& CALL_FOR_HEAT ≠ 0 → latch (Port_1_ISR s) = true) := by
  have h0 := (latch_eq_false s).1 h
  refine ⟨?_, ?_, ?_, ?_, ?_⟩
  · rw [latch_eq_false]
    by_cases ht : r.boiler ≥ r.setpoint
    · rw [poll_cycle_up_to_temp r s ht, (update_status_LED_frame _ _).2.2.2.2.2.2.2]
      exact (turn_everything_off_fields _).2.2.2.2.2.2.2.2.1
    · rw [poll_cycle_standby r s (Nat.lt_of_not_le ht) h0]
      simp [update_status_LED_frame, read_temperatures_fields, h0]
  · rw [latch_eq_false]
    exact (turn_everything_off_fields _).2.2.2.2.2.2.2.2.1
  · intro flame
    rw [latch_eq_false]
    by_cases hf : flame > 40
    · rw [(ignition_sequence_pass flame s hf).2.1]
      exact h0
    · exact (ignition_sequence_fail flame s (Nat.le_of_not_lt hf)).2.1
  · intro status
    rw [update_status_LED_latch]
    exact h
  · intro hp
    simp [latch, Port_1_ISR, hp]

/-- Witness for C9: the quiescent state with the interrupt flag pending. -/
theorem core_never_sets_latch_witness :
    latch { quiescent with P1IFG := 4 } = false ∧
    latch (poll_cycle ⟨60, 100, 45⟩ { quiescent with P1IFG := 4 }) = false ∧
    latch (turn_everything_off { quiescent with P1IFG := 4 }) = false ∧
    (∀ flame, latch (ignition_sequence flame { quiescent with P1IFG := 4 }) = false) ∧
    (∀ status, latch (update_status_LED status { quiescent with P1IFG := 4 }) = false) ∧
    ((4 : Nat) &&& CALL_FOR_HEAT ≠ 0 →
      latch (Port_1_ISR { quiescent with P1IFG := 4 }) = true) :=
  ⟨by decide, core_never_sets_latch ⟨60, 100, 45⟩ { quiescent with P1IFG := 4 } (by decide)⟩

/-- C10: in every state reachable from an initialised state by poll cycles
with arbitrary readings, call-for-heat edges and runs of `Port_1_ISR`, the
valve pulse width TB2CCR1 is 1000 or 2500. -/
theorem reachable_valve_legal (s : State) (h : Reachable s) :
    s.TB2CCR1 = 1000 ∨ s.TB2CCR1 = 2500 := by
  induction h with
  | init p1ifg p2out p6out tb2ccr0 tb2ccr1 =>
    left
    simp [startup, init_TimerB_PWM]
  | poll r _ ih =>
    rcases poll_cycle_TB2CCR1 r _ with h1 | h1 | h1
    · exact Or.inl h1
    · exact Or.inr h1
    · rw [h1]; exact ih
  | edge _ ih => simpa [call_for_heat_edge] using ih
  | isr _ ih => rw [Port_1_ISR_TB2CCR1]; exact ih

/-- Witness for C10: start-up, a call-for-heat edge, the interrupt and one
cycle with a proven flame reach a state with the valve open. -/
theorem reachable_valve_legal_witness :
    Reachable (poll_cycle ⟨60, 100, 45⟩
      (Port_1_ISR (call_for_heat_edge (startup (reset_state 0 0 0 0 0))))) ∧
    ((poll_cycle ⟨60, 100, 45⟩
      (Port_1_ISR (call_for_heat_edge (startup (reset_state 0 0 0 0 0))))).TB2CCR1 = 1000 ∨
     (poll_cycle ⟨60, 100, 45⟩
      (Port_1_ISR (call_for_heat_edge (startup (reset_state 0 0 0 0 0))))).TB2CCR1 = 2500) :=
  ⟨.poll _ (.isr (.edge (.init 0 0 0 0 0))),
    reachable_valve_legal _ (.poll _ (.isr (.edge (.init 0 0 0 0 0))))⟩

/-- The single colour bits of the indicator port, read off the indicator. -/
theorem colour_bits_of_indicator (s : State) :
    s.P6OUT &&& STATUS_RED = indicator s &&& STATUS_RED ∧
    s.P6OUT &&& STATUS_GREEN = indicator s &&& STATUS_GREEN ∧
    s.P6OUT &&& STATUS_BLUE = indicator s &&& STATUS_BLUE := by
  unfold indicator
  refine ⟨?_, ?_, ?_⟩ <;> rw [Nat.and_assoc] <;> rfl

/-- C11: for each of the three statuses and every prior value of the indicator
port, `update_status_LED` leaves exactly one colour bit set, blue for STANDBY,
red for HEATING and green for UP_TO_TEMP, and the other two clear. -/
theorem update_status_LED_one_colour (s : State) :
    (indicator (update_status_LED STANDBY s) = STATUS_BLUE ∧
      (update_status_LED STANDBY s).P6OUT &&& STATUS_BLUE ≠ 0 ∧
      (update_status_LED STANDBY s).P6OUT &&& STATUS_RED = 0 ∧
      (update_status_LED STANDBY s).P6OUT &&& STATUS_GREEN = 0) ∧
    (indicator (update_status_LED HEATING s) = STATUS_RED ∧
      (update_status_LED HEATING s).P6OUT &&& STATUS_RED ≠ 0 ∧
      (update_status_LED HEATING s).P6OUT &&& STATUS_GREEN = 0 ∧
      (update_status_LED HEATING s).P6OUT &&& STATUS_BLUE = 0) ∧
    (indicator (update_status_LED UP_TO_TEMP s) = STATUS_GREEN ∧
      (update_status_LED UP_TO_TEMP s).P6OUT &&& STATUS_GREEN ≠ 0 ∧
      (update_status_LED UP_TO_TEMP s).P6OUT &&& STATUS_RED = 0 ∧
      (update_status_LED UP_TO_TEMP s).P6OUT &&& STATUS_BLUE = 0) := by
  obtain ⟨hb, hr, hg⟩ := update_status_LED_indicator s
  obtain ⟨b1, b2, b3⟩ := colour_bits_of_indicator (update_status_LED STANDBY s)
  obtain ⟨r1, r2, r3⟩ := colour_bits_of_indicator (update_status_LED HEATING s)
  obtain ⟨g1, g2, g3⟩ := colour_bits_of_indicator (update_status_LED UP_TO_TEMP s)
  rw [hb] at b1 b2 b3
  rw [hr] at r1 r2 r3
  rw [hg] at g1 g2 g3
  refine ⟨⟨hb, ?_, ?_, ?_⟩, ⟨hr, ?_, ?_, ?_⟩, ⟨hg, ?_, ?_, ?_⟩⟩
  · rw [b3]; decide
  · rw [b1]; decide
  · rw [b2]; decide
  · rw [r1]; decide
  · rw [r2]; decide
  · rw [r3]; decide
  · rw [g2]; decide
  · rw [g1]; decide
  · rw [g3]; decide

/-- Once the handler has cleared the interrupt flag, the flag tests clear. -/
theorem bic_land_self (x m : Nat) : (x &&& cpl m) % 256 &&& m = 0 := by
  apply Nat.eq_of_testBit_eq
  intro i
  simp only [testBit_mod_256, Nat.testBit_and, testBit_cpl, Nat.zero_testBit]
  by_cases h8 : i < 8
  · have h16 : i < 16 := by omega
    simp only [h8, h16, decide_True]
    cases x.testBit i <;> cases m.testBit i <;> rfl
  · simp [h8]

theorem Port_1_ISR_pending (s : State) (h : s.P1IFG &&& CALL_FOR_HEAT ≠ 0) :
    Port_1_ISR s = P1IFG_bic CALL_FOR_HEAT (set_call_for_heat_flag 1 s) := by
  simp [Port_1_ISR, h]

theorem Port_1_ISR_idle (s : State) (h : s.P1IFG &&& CALL_FOR_HEAT = 0) :
    Port_1_ISR s = s := by
  simp [Port_1_ISR, h]

/-- Two states that agree on every register and global differ in the ghost
log only. -/
theorem state_eq_of_fields (a b : State) (h1 : a.P1IFG = b.P1IFG) (h2 : a.P2OUT = b.P2OUT)
    (h3 : a.P6OUT = b.P6OUT) (h4 : a.TB2CCR0 = b.TB2CCR0) (h5 : a.TB2CCR1 = b.TB2CCR1)
    (h6 : a.boiler_temp = b.boiler_temp) (h7 : a.set_point = b.set_point)
    (h8 : a.flame_detected = b.flame_detected)
    (h9 : a.call_for_heat_flag = b.call_for_heat_flag) :
    { a with log := b.log } = b := by
  cases a
  cases b
  simp_all

/-- After a call-for-heat edge the P1.2 interrupt flag is pending. -/
theorem call_for_heat_edge_pending (s : State) :
    (call_for_heat_edge s).P1IFG &&& CALL_FOR_HEAT ≠ 0 := by
  have h := land_two_pow_ne_zero (call_for_heat_edge s).P1IFG 2
  have hb : (call_for_heat_edge s).P1IFG.testBit 2 = true := by
    simp [call_for_heat_edge, testBit_mod_256, CALL_FOR_HEAT, testBit_BIT2]
  rw [hb] at h
  simpa using h

/-- Latching the flag again and clearing it again gives the same port value. -/
theorem edge_bic_edge_bic (x : Nat) :
    ((((x ||| CALL_FOR_HEAT) % 256 &&& cpl CALL_FOR_HEAT) % 256 ||| CALL_FOR_HEAT) % 256 &&&
        cpl CALL_FOR_HEAT) % 256 =
      ((x ||| CALL_FOR_HEAT) % 256 &&& cpl CALL_FOR_HEAT) % 256 := by
  apply Nat.eq_of_testBit_eq
  intro i
  simp only [testBit_mod_256, Nat.testBit_and, Nat.testBit_or, testBit_cpl, CALL_FOR_HEAT,
    testBit_BIT2]
  by_cases h8 : i < 8
  · have h16 : i < 16 := by omega
    simp only [h8, h16, decide_True]
    cases x.testBit i <;> cases decide (2 = i) <;> rfl
  · simp [h8]

/-- What the handler does once dispatched by an edge, field by field. -/
theorem Port_1_ISR_after_edge_fields (s : State) :
    (Port_1_ISR (call_for_heat_edge s)).P1IFG =
      ((s.P1IFG ||| CALL_FOR_HEAT) % 256 &&& cpl CALL_FOR_HEAT) % 256 ∧
    (Port_1_ISR (call_for_heat_edge s)).P2OUT = s.P2OUT ∧
    (Port_1_ISR (call_for_heat_edge s)).P6OUT = s.P6OUT ∧
    (Port_1_ISR (call_for_heat_edge s)).TB2CCR0 = s.TB2CCR0 ∧
    (Port_1_ISR (call_for_heat_edge s)).TB2CCR1 = s.TB2CCR1 ∧
    (Port_1_ISR (call_for_heat_edge s)).boiler_temp = s.boiler_temp ∧
    (Port_1_ISR (call_for_heat_edge s)).set_point = s.set_point ∧
    (Port_1_ISR (call_for_heat_edge s)).flame_detected = s.flame_detected ∧
    (Port_1_ISR (call_for_heat_edge s)).call_for_heat_flag = 1 := by
  rw [Port_1_ISR_pending _ (call_for_heat_edge_pending s)]
  simp [call_for_heat_edge]

/-- C14: the call-for-heat handler `Port_1_ISR` is entered only through the
port-1 interrupt vector, that is with the P1.2 interrupt flag pending (the only
interrupt enabled on the port).  Whenever it runs so, in particular after a
call-for-heat edge from any state, the latch is true afterwards.  It is
idempotent: run twice in a row it gives the same state as run once, and
dispatched by a second edge it gives the same registers and globals as
dispatched once.  It changes no actuator output: P2OUT (igniter, pilot valve),
TB2CCR1 (valve pulse width) and P6OUT (indicator) keep their values. -/
theorem Port_1_ISR_raises_latch (s : State) :
    latch (Port_1_ISR (call_for_heat_edge s)) = true ∧
    (s.P1IFG &&& CALL_FOR_HEAT ≠ 0 → latch (Port_1_ISR s) = true) ∧
    Port_1_ISR (Port_1_ISR s) = Port_1_ISR s ∧
    { Port_1_ISR (call_for_heat_edge (Port_1_ISR (call_for_heat_edge s))) with
      log := (Port_1_ISR (call_for_heat_edge s)).log } =
      Port_1_ISR (call_for_heat_edge s) ∧
    (Port_1_ISR s).P2OUT = s.P2OUT ∧
    (Port_1_ISR s).TB2CCR1 = s.TB2CCR1 ∧
    (Port_1_ISR s).P6OUT = s.P6OUT ∧
    igniter_on (Port_1_ISR s) = igniter_on s ∧
    pilot_valve_on (Port_1_ISR s) = pilot_valve_on s ∧
    indicator (Port_1_ISR s) = indicator s ∧
    igniter_on (Port_1_ISR (call_for_heat_edge s)) = igniter_on s ∧
    pilot_valve_on (Port_1_ISR (call_for_heat_edge s)) = pilot_valve_on s ∧
    (Port_1_ISR (call_for_heat_edge s)).TB2CCR1 = s.TB2CCR1 ∧
    indicator (Port_1_ISR (call_for_heat_edge s)) = indicator s := by
  have hset : ∀ t : State, t.P1IFG &&& CALL_FOR_HEAT ≠ 0 →
      latch (Port_1_ISR t) = true ∧ (Port_1_ISR t).P1IFG &&& CALL_FOR_HEAT = 0 := by
    intro t h
    rw [Port_1_ISR_pending t h]
    refine ⟨by simp [latch], ?_⟩
    simp only [P1IFG_bic_fields, set_call_for_heat_flag_fields]
    exact bic_land_self _ _
  have h2 : (Port_1_ISR s).P2OUT = s.P2OUT := by
    unfold Port_1_ISR
    split <;> simp
  have h6 : (Port_1_ISR s).P6OUT = s.P6OUT := by
    unfold Port_1_ISR
    split <;> simp
  obtain ⟨e1, e2, e3, e4, e5, e6, e7, e8, e9⟩ := Port_1_ISR_after_edge_fields s
  obtain ⟨f1, f2, f3, f4, f5, f6, f7, f8, f9⟩ :=
    Port_1_ISR_after_edge_fields (Port_1_ISR (call_for_heat_edge s))
  refine ⟨(hset _ (call_for_heat_edge_pending s)).1, fun h => (hset s h).1, ?_, ?_, h2,
    Port_1_ISR_TB2CCR1 s, h6, ?_, ?_, ?_, ?_, ?_, e5, ?_⟩
  · by_cases h : s.P1IFG &&& CALL_FOR_HEAT = 0
    · rw [Port_1_ISR_idle s h, Port_1_ISR_idle s h]
    · exact Port_1_ISR_idle _ (hset s h).2
  · apply state_eq_of_fields
    · rw [f1, e1]
      exact edge_bic_edge_bic _
    · rw [f2]
    · rw [f3]
    · rw [f4]
    · rw [f5]
    · rw [f6]
    · rw [f7]
    · rw [f8]
    · rw [f9, e9]
  · simp [igniter_on, h2]
  · simp [pilot_valve_on, h2]
  · simp [indicator, h6]
  · simp [igniter_on, e2]
  · simp [pilot_valve_on, e2]
  · simp [indicator, e3]

/-- C15: the accesses of `ignition_sequence`, in order: the pilot valve is
switched on, then ten igniter toggles follow, each followed only by its delay,
then the thermocouple is read once, and only then comes either the one store of
the open pulse width or the three accesses of `turn_everything_off`. -/
theorem ignition_sequence_order (flame : Nat) (s : State) :
    emitted s (ignition_sequence flame s) =
      [.set .P2OUT PILOT_VALVE,
       .toggle .P2OUT IGNITOR_LED, .delay 100000, .toggle .P2OUT IGNITOR_LED, .delay 100000,
       .toggle .P2OUT IGNITOR_LED, .delay 100000, .toggle .P2OUT IGNITOR_LED, .delay 100000,
       .toggle .P2OUT IGNITOR_LED, .delay 100000, .toggle .P2OUT IGNITOR_LED, .delay 100000,
       .toggle .P2OUT IGNITOR_LED, .delay 100000, .toggle .P2OUT IGNITOR_LED, .delay 100000,
       .toggle .P2OUT IGNITOR_LED, .delay 100000, .toggle .P2OUT IGNITOR_LED, .delay 100000,
       .adc THERMOCOUPLE_CH] ++
      (if flame > 40 then [.store .TB2CCR1 2500]
       else [.clear .P2OUT (IGNITOR_LED ||| PILOT_VALVE), .store .TB2CCR1 1000,
             .store .call_for_heat_flag 0]) ∧
    (emitted s (ignition_sequence flame s)).count (.toggle .P2OUT IGNITOR_LED) = 10 ∧
    (emitted s (ignition_sequence flame s)).count (.adc THERMOCOUPLE_CH) = 1 ∧
    (∀ v, Event.store .TB2CCR1 v ∉ (emitted s (ignition_sequence flame s)).take 22) ∧
    (emitted s (ignition_sequence flame s)).get? 21 = some (.adc THERMOCOUPLE_CH) := by
  rw [emitted_append s _ _ (ignition_sequence_log flame s)]
  by_cases h : flame > 40
  · simp only [if_pos h, blink_events]
    refine ⟨rfl, by decide, by decide, ?_, rfl⟩
    intro v hv
    simp at hv
  · simp only [if_neg h, blink_events]
    refine ⟨rfl, by decide, by decide, ?_, rfl⟩
    intro v hv
    simp at hv

/-! ## Invariants of the reachable states -/

/-- What one poll cycle can do to the outputs, the valve and the latch: it
shuts everything off, or it proves a flame and opens the valve with the pilot
valve on and the latch and igniter bit as before, or it idles. -/
theorem poll_cycle_cases (r : Readings) (s : State) :
    ((poll_cycle r s).TB2CCR1 = 1000 ∧ igniter_on (poll_cycle r s) = false ∧
      pilot_valve_on (poll_cycle r s) = false ∧ (poll_cycle r s).call_for_heat_flag = 0) ∨
    (s.call_for_heat_flag ≠ 0 ∧ r.boiler < r.setpoint ∧ r.flame > 40 ∧
      (poll_cycle r s).TB2CCR1 = 2500 ∧ igniter_on (poll_cycle r s) = igniter_on s ∧
      pilot_valve_on (poll_cycle r s) = true ∧
      (poll_cycle r s).call_for_heat_flag = s.call_for_heat_flag) ∨
    (s.call_for_heat_flag = 0 ∧ r.boiler < r.setpoint ∧
      (poll_cycle r s).TB2CCR1 = s.TB2CCR1 ∧ (poll_cycle r s).P2OUT = s.P2OUT ∧
      (poll_cycle r s).call_for_heat_flag = 0) := by
  by_cases h : r.boiler ≥ r.setpoint
  · left
    rw [poll_cycle_up_to_temp r s h]
    refine ⟨?_, ?_, ?_, ?_⟩
    · rw [(update_status_LED_frame _ _).2.2.2.1]
      exact (turn_everything_off_fields _).2.2.2.2.1
    · rw [update_status_LED_igniter]
      exact turn_everything_off_igniter _
    · rw [update_status_LED_pilot]
      exact turn_everything_off_pilot _
    · rw [(update_status_LED_frame _ _).2.2.2.2.2.2.2]
      exact (turn_everything_off_fields _).2.2.2.2.2.2.2.2.1
  · have hlt : r.boiler < r.setpoint := Nat.lt_of_not_le h
    by_cases hl : s.call_for_heat_flag = 0
    · right; right
      rw [poll_cycle_standby r s hlt hl]
      refine ⟨hl, hlt, ?_, ?_, ?_⟩ <;>
        simp [update_status_LED_frame, read_temperatures_fields, hl]
    · rw [poll_cycle_heating r s hlt hl]
      by_cases hf : r.flame > 40
      · right; left
        obtain ⟨h1, h2, h3, h4⟩ := ignition_sequence_pass r.flame
          (update_status_LED HEATING (read_temperatures r s)) hf
        refine ⟨hl, hlt, hf, by simpa using h1, ?_, by simpa [pilot_valve_on] using h4, ?_⟩
        · rw [update_status_LED_igniter] at h3
          simpa [igniter_on, read_temperatures_fields] using h3
        · rw [(update_status_LED_frame _ _).2.2.2.2.2.2.2] at h2
          simpa [read_temperatures_fields] using h2
      · left
        obtain ⟨h1, h2, h3, h4⟩ := ignition_sequence_fail r.flame
          (update_status_LED HEATING (read_temperatures r s)) (Nat.le_of_not_lt hf)
        exact ⟨by simpa using h1, by simpa [igniter_on] using h3,
          by simpa [pilot_valve_on] using h4, by simpa using h2⟩

theorem startup_fields (p1ifg p2out p6out tb2ccr0 tb2ccr1 : Nat) :
    (startup (reset_state p1ifg p2out p6out tb2ccr0 tb2ccr1)).TB2CCR1 = 1000 ∧
    (startup (reset_state p1ifg p2out p6out tb2ccr0 tb2ccr1)).call_for_heat_flag = 0 ∧
    (startup (reset_state p1ifg p2out p6out tb2ccr0 tb2ccr1)).P2OUT =
      (p2out &&& cpl (IGNITOR_LED ||| PILOT_VALVE)) % 256 := by
  simp [startup, init_TimerB_PWM, init_ADC, init_GPIO, reset_state]

theorem Port_1_ISR_flag (s : State) :
    (Port_1_ISR s).call_for_heat_flag = s.call_for_heat_flag ∨
      (Port_1_ISR s).call_for_heat_flag = 1 := by
  unfold Port_1_ISR
  split <;> simp

theorem Port_1_ISR_P2OUT (s : State) : (Port_1_ISR s).P2OUT = s.P2OUT := by
  unfold Port_1_ISR
  split <;> simp

/-- The invariant of the reachable states: the igniter is off, and an open
valve comes with the pilot valve on and the latch set. -/
theorem reachable_invariant (s : State) (h : Reachable s) :
    igniter_on s = false ∧
    (s.TB2CCR1 = 2500 → pilot_valve_on s = true ∧ s.call_for_heat_flag ≠ 0) := by
  induction h with
  | init p1ifg p2out p6out tb2ccr0 tb2ccr1 =>
    obtain ⟨h1, _, h3⟩ := startup_fields p1ifg p2out p6out tb2ccr0 tb2ccr1
    constructor
    · rw [igniter_on_eq, h3]
      simp [-Nat.testBit_zero, testBit_mod_256, testBit_cpl, IGNITOR_LED, PILOT_VALVE,
        testBit_BIT0, testBit_BIT5]
    · intro h
      rw [h1] at h
      exact absurd h (by decide)
  | poll r _ ih =>
    rcases poll_cycle_cases r _ with ⟨h1, h2, _, _⟩ | ⟨hl, _, _, _, h2, h3, h4⟩ |
      ⟨hl, _, h1, h2, h3⟩
    · refine ⟨h2, ?_⟩
      intro h
      rw [h1] at h
      exact absurd h (by decide)
    · refine ⟨h2.trans ih.1, fun _ => ⟨h3, ?_⟩⟩
      rw [h4]
      exact hl
    · constructor
      · simpa [igniter_on, h2] using ih.1
      · intro h
        rw [h1] at h
        exact absurd hl (ih.2 h).2
  | edge _ ih =>
    simpa [call_for_heat_edge, igniter_on, pilot_valve_on] using ih
  | isr _ ih =>
    rename_i t _
    constructor
    · simpa [igniter_on, Port_1_ISR_P2OUT] using ih.1
    · intro h
      rw [Port_1_ISR_TB2CCR1] at h
      obtain ⟨hp, hl⟩ := ih.2 h
      refine ⟨by simpa [pilot_valve_on, Port_1_ISR_P2OUT] using hp, ?_⟩
      rcases Port_1_ISR_flag t with hf | hf
      · rw [hf]; exact hl
      · rw [hf]; decide

theorem heat_called_reachable : Reachable heat_called :=
  .isr (.edge (.init 0 0 0 0 0))

theorem heating_reachable : Reachable heating :=
  .poll _ heat_called_reachable

/-- C17: in every reachable state, and so at the end of every poll cycle run
from one, the valve pulse width is 2500 only if the pilot-valve output is on. -/
theorem reachable_open_valve_has_pilot (s : State) (h : Reachable s) :
    (s.TB2CCR1 = 2500 → pilot_valve_on s = true) ∧
    (∀ r, (poll_cycle r s).TB2CCR1 = 2500 → pilot_valve_on (poll_cycle r s) = true) :=
  ⟨fun h25 => ((reachable_invariant s h).2 h25).1,
   fun r h25 => ((reachable_invariant _ (.poll r h)).2 h25).1⟩

/-- Witness for C17: the state with a call for heat latched; the cycle with a
proven flame run from it ends with the valve open. -/
theorem reachable_open_valve_has_pilot_witness :
    Reachable heat_called ∧
    (poll_cycle ⟨60, 100, 45⟩ heat_called).TB2CCR1 = 2500 ∧
    (heat_called.TB2CCR1 = 2500 → pilot_valve_on heat_called = true) ∧
    (∀ r, (poll_cycle r heat_called).TB2CCR1 = 2500 →
      pilot_valve_on (poll_cycle r heat_called) = true) :=
  ⟨heat_called_reachable, by decide,
    reachable_open_valve_has_pilot heat_called heat_called_reachable⟩

/-- C19: in every reachable state, and so at the end of every poll cycle run
from one, the igniter output is off; the ten toggles of the blink loop return
the igniter bit to its value on entry, so the igniter is off whenever the valve
pulse width is 2500. -/
theorem reachable_igniter_off (s : State) (h : Reachable s) :
    igniter_on s = false ∧
    (∀ r, igniter_on (poll_cycle r s) = false) ∧
    (∀ t, igniter_on (ignition_blink 10 t) = igniter_on t) ∧
    (∀ r, (poll_cycle r s).TB2CCR1 = 2500 → igniter_on (poll_cycle r s) = false) := by
  refine ⟨(reachable_invariant s h).1, fun r => (reachable_invariant _ (.poll r h)).1, ?_,
    fun r _ => (reachable_invariant _ (.poll r h)).1⟩
  intro t
  rw [igniter_on_eq, igniter_on_eq]
  exact ignition_blink_even_igniter 5 t

/-- Witness for C19: the state with a call for heat latched. -/
theorem reachable_igniter_off_witness :
    Reachable heat_called ∧
    igniter_on heat_called = false ∧
    (∀ r, igniter_on (poll_cycle r heat_called) = false) ∧
    (∀ t, igniter_on (ignition_blink 10 t) = igniter_on t) ∧
    (∀ r, (poll_cycle r heat_called).TB2CCR1 = 2500 →
      igniter_on (poll_cycle r heat_called) = false) :=
  ⟨heat_called_reachable, reachable_igniter_off heat_called heat_called_reachable⟩

/-- C20: in every reachable state, and so at the end of every poll cycle run
from one, the valve pulse width is 2500 only if the latch is set; hence a cycle
that starts with the valve open and reads a boiler temperature below the
setpoint runs the ignition sequence, flame check included, again. -/
theorem reachable_open_valve_has_latch (s : State) (h : Reachable s) :
    (s.TB2CCR1 = 2500 → latch s = true) ∧
    (∀ r, (poll_cycle r s).TB2CCR1 = 2500 → latch (poll_cycle r s) = true) ∧
    (∀ r : Readings, s.TB2CCR1 = 2500 → r.boiler < r.setpoint →
      poll_cycle r s =
        delay_cycles 100000
          (ignition_sequence r.flame
            (update_status_LED HEATING (read_temperatures r s)))) := by
  refine ⟨fun h25 => (latch_eq_true s).2 ((reachable_invariant s h).2 h25).2,
    fun r h25 => (latch_eq_true _).2 ((reachable_invariant _ (.poll r h)).2 h25).2, ?_⟩
  intro r h25 ht
  exact poll_cycle_heating r s ht ((reachable_invariant s h).2 h25).2

/-- Witness for C20: the state in which the valve has just been opened. -/
theorem reachable_open_valve_has_latch_witness :
    Reachable heating ∧ heating.TB2CCR1 = 2500 ∧
    (heating.TB2CCR1 = 2500 → latch heating = true) ∧
    (∀ r, (poll_cycle r heating).TB2CCR1 = 2500 → latch (poll_cycle r heating) = true) ∧
    (∀ r : Readings, heating.TB2CCR1 = 2500 → r.boiler < r.setpoint →
      poll_cycle r heating =
        delay_cycles 100000
          (ignition_sequence r.flame
            (update_status_LED HEATING (read_temperatures r heating)))) :=
  ⟨heating_reachable, by decide, reachable_open_valve_has_latch heating heating_reachable⟩

/-! ## The conversions -/

theorem thermistor_to_temperature_eq (r : Nat) :
    thermistor_to_temperature r = ((71610 + 55 * r : Nat) : ℚ) / (1023 : Nat) := by
  simp only [thermistor_to_temperature]
  push_cast
  norm_num
  ring

theorem setpoint_to_temperature_eq (r : Nat) :
    setpoint_to_temperature r = ((51150 + 100 * r : Nat) : ℚ) / (1023 : Nat) := by
  simp only [setpoint_to_temperature]
  push_cast
  norm_num
  ring

theorem thermocouple_to_temperature_eq (r : Nat) :
    thermocouple_to_temperature r = ((40672 + 18000 * r : Nat) : ℚ) / (1271 : Nat) := by
  simp only [thermocouple_to_temperature]
  push_cast
  norm_num
  ring

/-- The truncated boiler temperature, in integer arithmetic. -/
theorem boiler_reading_eq (r : Nat) :
    to_unsigned_int (thermistor_to_temperature r) = 70 + 55 * r / 1023 := by
  rw [to_unsigned_int, thermistor_to_temperature_eq, Nat.floor_div_eq_div]
  omega

/-- The truncated setpoint, in integer arithmetic. -/
theorem setpoint_reading_eq (r : Nat) :
    to_unsigned_int (setpoint_to_temperature r) = 50 + 100 * r / 1023 := by
  rw [to_unsigned_int, setpoint_to_temperature_eq, Nat.floor_div_eq_div]
  omega

/-- The truncated flame temperature, in integer arithmetic. -/
theorem flame_reading_eq (r : Nat) :
    to_unsigned_int (thermocouple_to_temperature r) = 32 + 18000 * r / 1271 := by
  rw [to_unsigned_int, thermocouple_to_temperature_eq, Nat.floor_div_eq_div]
  omega

/-- C12: the linear conversions hit their end points exactly:
`thermistor_to_temperature` gives 70 at 0 and 125 at 1023,
`setpoint_to_temperature` gives 50 at 0 and 150 at 1023. -/
theorem conversion_end_points :
    thermistor_to_temperature 0 = 70.0 ∧ thermistor_to_temperature 1023 = 125.0 ∧
    setpoint_to_temperature 0 = 50.0 ∧ setpoint_to_temperature 1023 = 150.0 := by
  refine ⟨?_, ?_, ?_, ?_⟩ <;>
    norm_num [thermistor_to_temperature, setpoint_to_temperature]

/-- C13: each of the three conversions is monotonic in the raw sample: for
samples `a ≤ b` (in the 10-bit range or beyond it), the converted value at `a`
is at most the converted value at `b` (the arithmetic taken as exact). -/
theorem conversions_monotone (a b : Nat) (hab : a ≤ b) :
    thermistor_to_temperature a ≤ thermistor_to_temperature b ∧
    setpoint_to_temperature a ≤ setpoint_to_temperature b ∧
    thermocouple_to_temperature a ≤ thermocouple_to_temperature b := by
  have h : (a : ℚ) ≤ (b : ℚ) := by exact_mod_cast hab
  have hc : ((40672 + 18000 * a : Nat) : ℚ) ≤ ((40672 + 18000 * b : Nat) : ℚ) := by
    exact_mod_cast (by omega : 40672 + 18000 * a ≤ 40672 + 18000 * b)
  have ht : ((71610 + 55 * a : Nat) : ℚ) ≤ ((71610 + 55 * b : Nat) : ℚ) := by
    exact_mod_cast (by omega : 71610 + 55 * a ≤ 71610 + 55 * b)
  have hs : ((51150 + 100 * a : Nat) : ℚ) ≤ ((51150 + 100 * b : Nat) : ℚ) := by
    exact_mod_cast (by omega : 51150 + 100 * a ≤ 51150 + 100 * b)
  refine ⟨?_, ?_, ?_⟩
  · rw [thermistor_to_temperature_eq, thermistor_to_temperature_eq]
    exact div_le_div_of_nonneg_right ht (by norm_num)
  · rw [setpoint_to_temperature_eq, setpoint_to_temperature_eq]
    exact div_le_div_of_nonneg_right hs (by norm_num)
  · rw [thermocouple_to_temperature_eq, thermocouple_to_temperature_eq]
    exact div_le_div_of_nonneg_right hc (by norm_num)

/-- Witness for C13: the two ends of the 10-bit range. -/
theorem conversions_monotone_witness :
    (0 ≤ 1023) ∧
    thermistor_to_temperature 0 ≤ thermistor_to_temperature 1023 ∧
    setpoint_to_temperature 0 ≤ setpoint_to_temperature 1023 ∧
    thermocouple_to_temperature 0 ≤ thermocouple_to_temperature 1023 :=
  ⟨by decide, conversions_monotone 0 1023 (by decide)⟩

/-- C16: over the 10-bit range the flame check is a non-zero test of the raw
thermocouple sample: the truncated flame temperature exceeds 40 exactly when
the sample is at least 1 (0 converts to 32, 1 to 46), and it stays within the
16-bit unsigned range. -/
theorem flame_check_is_nonzero_test (r : Nat) (hr : r ≤ 1023) :
    (to_unsigned_int (thermocouple_to_temperature r) > 40 ↔ r ≥ 1) ∧
    to_unsigned_int (thermocouple_to_temperature r) ≤ 65535 ∧
    to_unsigned_int (thermocouple_to_temperature 0) = 32 ∧
    to_unsigned_int (thermocouple_to_temperature 1) = 46 ∧
    ((sampled_readings 0 0 r).flame > 40 ↔ r ≥ 1) := by
  have hf := flame_reading_eq r
  refine ⟨?_, ?_, ?_, ?_, ?_⟩
  · rw [hf]; omega
  · rw [hf]; omega
  · rw [flame_reading_eq]
  · rw [flame_reading_eq]
  · show to_unsigned_int (thermocouple_to_temperature r) > 40 ↔ r ≥ 1
    rw [hf]; omega

/-- Witness for C16: the top of the 10-bit range. -/
theorem flame_check_is_nonzero_test_witness :
    (1023 ≤ 1023) ∧
    (to_unsigned_int (thermocouple_to_temperature 1023) > 40 ↔ 1023 ≥ 1) ∧
    to_unsigned_int (thermocouple_to_temperature 1023) ≤ 65535 ∧
    to_unsigned_int (thermocouple_to_temperature 0) = 32 ∧
    to_unsigned_int (thermocouple_to_temperature 1) = 46 ∧
    ((sampled_readings 0 0 1023).flame > 40 ↔ 1023 ≥ 1) :=
  ⟨by decide, flame_check_is_nonzero_test 1023 (by decide)⟩

/-- Below the setpoint the cycle never shows the up-to-temperature colour. -/
theorem poll_cycle_not_green (r : Readings) (s : State) (h : r.boiler < r.setpoint) :
    indicator (poll_cycle r s) ≠ STATUS_GREEN := by
  by_cases hl : s.call_for_heat_flag = 0
  · have hr := (update_status_LED_indicator (read_temperatures r s)).1
    rw [poll_cycle_standby r s h hl]
    have hi : indicator (delay_cycles 100000
        (update_status_LED STANDBY (read_temperatures r s))) = STATUS_BLUE := by
      simpa [indicator] using hr
    rw [hi]; decide
  · have hr := (update_status_LED_indicator (read_temperatures r s)).2.1
    rw [poll_cycle_heating r s h hl]
    have hi : indicator (delay_cycles 100000 (ignition_sequence r.flame
        (update_status_LED HEATING (read_temperatures r s)))) = STATUS_RED := by
      simpa [indicator, ignition_sequence_P6OUT] using hr
    rw [hi]; decide

/-- C18: the up-to-temperature decision is taken on the truncated
temperatures: with raw samples `r` (thermistor) and `s` (setpoint) the poll
cycle takes the shutdown branch exactly when the whole degrees of
`70 + 55 r / 1023` reach the whole degrees of `50 + 100 s / 1023`; for `r = 0`,
`s = 205` it shuts down although the converted boiler temperature is below the
converted setpoint. -/
theorem up_to_temp_on_truncated (r s c : Nat) (st : State) :
    (poll_cycle (sampled_readings r s c) st =
        update_status_LED UP_TO_TEMP
          (turn_everything_off (read_temperatures (sampled_readings r s c) st)) ↔
      ⌊(70 : ℚ) + 55 * r / 1023⌋₊ ≥ ⌊(50 : ℚ) + 100 * s / 1023⌋₊) ∧
    (indicator (poll_cycle (sampled_readings r s c) st) = STATUS_GREEN ↔
      70 + 55 * r / 1023 ≥ 50 + 100 * s / 1023) ∧
    ⌊(70 : ℚ) + 55 * r / 1023⌋₊ = 70 + 55 * r / 1023 ∧
    ⌊(50 : ℚ) + 100 * s / 1023⌋₊ = 50 + 100 * s / 1023 ∧
    thermistor_to_temperature 0 < setpoint_to_temperature 205 ∧
    poll_cycle (sampled_readings 0 205 c) st =
      update_status_LED UP_TO_TEMP
        (turn_everything_off (read_temperatures (sampled_readings 0 205 c) st)) := by
  have hb : ⌊(70 : ℚ) + 55 * r / 1023⌋₊ = 70 + 55 * r / 1023 := by
    have h := boiler_reading_eq r
    rw [to_unsigned_int] at h
    rw [← h]
    congr 1
    simp only [thermistor_to_temperature]
    norm_num
    ring
  have hs : ⌊(50 : ℚ) + 100 * s / 1023⌋₊ = 50 + 100 * s / 1023 := by
    have h := setpoint_reading_eq s
    rw [to_unsigned_int] at h
    rw [← h]
    congr 1
    simp only [setpoint_to_temperature]
    norm_num
    ring
  have hgreen : ∀ R : Readings, R.boiler ≥ R.setpoint →
      indicator (poll_cycle R st) = STATUS_GREEN := by
    intro R h
    rw [poll_cycle_up_to_temp R st h]
    exact (update_status_LED_indicator _).2.2
  have hrb : (sampled_readings r s c).boiler = 70 + 55 * r / 1023 := boiler_reading_eq r
  have hrs : (sampled_readings r s c).setpoint = 50 + 100 * s / 1023 := setpoint_reading_eq s
  refine ⟨?_, ?_, hb, hs, ?_, ?_⟩
  · rw [hb, hs]
    constructor
    · intro heq
      by_contra hlt
      have hlt' : (sampled_readings r s c).boiler < (sampled_readings r s c).setpoint := by
        rw [hrb, hrs]; omega
      apply poll_cycle_not_green _ st hlt'
      rw [heq]
      exact (update_status_LED_indicator _).2.2
    · intro hge
      apply poll_cycle_up_to_temp
      rw [hrb, hrs]; exact hge
  · constructor
    · intro hg
      by_contra hlt
      have hlt' : (sampled_readings r s c).boiler < (sampled_readings r s c).setpoint := by
        rw [hrb, hrs]; omega
      exact poll_cycle_not_green _ st hlt' hg
    · intro hge
      apply hgreen
      rw [hrb, hrs]; exact hge
  · norm_num [thermistor_to_temperature, setpoint_to_temperature]
  · apply poll_cycle_up_to_temp
    show to_unsigned_int (setpoint_to_temperature 205) ≤
      to_unsigned_int (thermistor_to_temperature 0)
    rw [boiler_reading_eq, setpoint_reading_eq]

end GasValve
